import Mathlib

/-!
Verification of the texture level-of-detail helper library
(TexLODHelpers.hlsli) of the NVIDIA Path Tracing SDK.

The HLSL source is shallowly embedded over the real numbers: the HLSL
types float / float2 / float3 become ℝ / Float2 / Float3, and each HLSL
function becomes a Lean definition that mirrors the source line by line.
Division is the total real division of Lean (x / 0 = 0), and the IEEE
special values NaN / Inf are not modelled: a claim that a division is
guarded is stated as the corresponding denominator being nonzero (or
floored away from zero).

The RayCone payload is modelled with the plain float fields of the
FP32 branch of the source (the optional FP16 bit packing of
USE_RAYCONES_WITH_FP16_IN_RAYPAYLOAD is a bit-level storage format,
not arithmetic, and is outside this real-number embedding).
-/

set_option linter.unusedVariables false
set_option linter.unreachableTactic false
set_option linter.unusedTactic false

/-- Two-component vector, the embedding of the HLSL float2 type. -/
@[ext]
structure Float2 where
  x : ℝ
  y : ℝ

/-- Three-component vector, the embedding of the HLSL float3 type. -/
@[ext]
structure Float3 where
  x : ℝ
  y : ℝ
  z : ℝ

instance : Add Float2 := ⟨fun a b => ⟨a.x + b.x, a.y + b.y⟩⟩
instance : Sub Float2 := ⟨fun a b => ⟨a.x - b.x, a.y - b.y⟩⟩
instance : Neg Float2 := ⟨fun a => ⟨-a.x, -a.y⟩⟩
instance : SMul ℝ Float2 := ⟨fun t a => ⟨t * a.x, t * a.y⟩⟩

instance : Add Float3 := ⟨fun a b => ⟨a.x + b.x, a.y + b.y, a.z + b.z⟩⟩
instance : Sub Float3 := ⟨fun a b => ⟨a.x - b.x, a.y - b.y, a.z - b.z⟩⟩
instance : Neg Float3 := ⟨fun a => ⟨-a.x, -a.y, -a.z⟩⟩
instance : SMul ℝ Float3 := ⟨fun t a => ⟨t * a.x, t * a.y, t * a.z⟩⟩

@[simp] theorem Float2_add_x (a b : Float2) : (a + b).x = a.x + b.x := rfl
@[simp] theorem Float2_add_y (a b : Float2) : (a + b).y = a.y + b.y := rfl
@[simp] theorem Float2_sub_x (a b : Float2) : (a - b).x = a.x - b.x := rfl
@[simp] theorem Float2_sub_y (a b : Float2) : (a - b).y = a.y - b.y := rfl
@[simp] theorem Float2_neg_x (a : Float2) : (-a).x = -a.x := rfl
@[simp] theorem Float2_neg_y (a : Float2) : (-a).y = -a.y := rfl
@[simp] theorem Float2_smul_x (t : ℝ) (a : Float2) : (t • a).x = t * a.x := rfl
@[simp] theorem Float2_smul_y (t : ℝ) (a : Float2) : (t • a).y = t * a.y := rfl

@[simp] theorem Float3_add_x (a b : Float3) : (a + b).x = a.x + b.x := rfl
@[simp] theorem Float3_add_y (a b : Float3) : (a + b).y = a.y + b.y := rfl
@[simp] theorem Float3_add_z (a b : Float3) : (a + b).z = a.z + b.z := rfl
@[simp] theorem Float3_sub_x (a b : Float3) : (a - b).x = a.x - b.x := rfl
@[simp] theorem Float3_sub_y (a b : Float3) : (a - b).y = a.y - b.y := rfl
@[simp] theorem Float3_sub_z (a b : Float3) : (a - b).z = a.z - b.z := rfl
@[simp] theorem Float3_neg_x (a : Float3) : (-a).x = -a.x := rfl
@[simp] theorem Float3_neg_y (a : Float3) : (-a).y = -a.y := rfl
@[simp] theorem Float3_neg_z (a : Float3) : (-a).z = -a.z := rfl
@[simp] theorem Float3_smul_x (t : ℝ) (a : Float3) : (t • a).x = t * a.x := rfl
@[simp] theorem Float3_smul_y (t : ℝ) (a : Float3) : (t • a).y = t * a.y := rfl
@[simp] theorem Float3_smul_z (t : ℝ) (a : Float3) : (t • a).z = t * a.z := rfl

/-- Embedding of the HLSL dot product on float2. -/
def dot2 (a b : Float2) : ℝ := a.x * b.x + a.y * b.y

/-- Embedding of the HLSL dot product on float3. -/
def dot3 (a b : Float3) : ℝ := a.x * b.x + a.y * b.y + a.z * b.z

/-- Embedding of the HLSL cross product on float3. -/
def cross3 (a b : Float3) : Float3 :=
  ⟨a.y * b.z - a.z * b.y, a.z * b.x - a.x * b.z, a.x * b.y - a.y * b.x⟩

/-- Embedding of the HLSL length of a float2. -/
noncomputable def length2 (a : Float2) : ℝ := Real.sqrt (dot2 a a)

/-- Embedding of the HLSL length of a float3. -/
noncomputable def length3 (a : Float3) : ℝ := Real.sqrt (dot3 a a)

/-- Embedding of the HLSL normalize on float2 (junk value on the zero vector,
where the HLSL source would divide by zero as well). -/
noncomputable def normalize2 (a : Float2) : Float2 := (1 / length2 a) • a

/-- Embedding of the HLSL normalize on float3 (junk value on the zero vector,
where the HLSL source would divide by zero as well). -/
noncomputable def normalize3 (a : Float3) : Float3 := (1 / length3 a) • a

/-- Embedding of the HLSL sign intrinsic on float: -1, 0 or +1. -/
noncomputable def hlslSign (v : ℝ) : ℝ := if v < 0 then -1 else if v = 0 then 0 else 1

/-- Ray cone payload for texture level-of-detail: width and full spread
angle, the FP32 field layout of the source struct RayCone. -/
structure RayCone where
  width : ℝ
  spreadAngle : ℝ

/-- Embedding of RayCone::make (via RayCone::__init). -/
def RayCone.make (width angle : ℝ) : RayCone := ⟨width, angle⟩

/-- Embedding of RayCone::getWidth. -/
def RayCone.getWidth (rc : RayCone) : ℝ := rc.width

/-- Embedding of RayCone::getSpreadAngle. -/
def RayCone.getSpreadAngle (rc : RayCone) : ℝ := rc.spreadAngle

/-- Embedding of RayCone::propagateDistance. -/
def RayCone.propagateDistance (rc : RayCone) (hitT : ℝ) : RayCone :=
  RayCone.make (rc.getSpreadAngle * hitT + rc.getWidth) rc.getSpreadAngle

/-- Embedding of RayCone::addToSpreadAngle. -/
def RayCone.addToSpreadAngle (rc : RayCone) (surfaceSpreadAngle : ℝ) : RayCone :=
  RayCone.make rc.getWidth (rc.getSpreadAngle + surfaceSpreadAngle)

/-- Embedding of the texture-dimension-free overload of RayCone::computeLOD. -/
noncomputable def RayCone.computeLOD (rc : RayCone) (triLODConstant : ℝ)
    (rayDir normal : Float3) (moreDetailOnSlopes : Bool) : ℝ :=
  let lambda := triLODConstant
  let filterWidth := rc.getWidth
  let distTerm := |filterWidth|
  let normalTerm := |dot3 rayDir normal|
  let normalTerm := if moreDetailOnSlopes then Real.sqrt normalTerm else normalTerm
  lambda + Real.logb 2 (distTerm / normalTerm)

/-- Grazing-angle clamp shared by computeSpreadAngleFromCurvatureIso and
TriangleCurvature_EllipseVis::eval, embedding the source line
dn = abs(dn) < 1.0e-5 ? sign(dn) * 1.0e-5 : dn. -/
noncomputable def clampGrazing (dn : ℝ) : ℝ :=
  if |dn| < 1e-5 then hlslSign dn * 1e-5 else dn

/-- Clamped denominator dn of computeSpreadAngleFromCurvatureIso:
dn = -dot(rayDir, normal), then the grazing clamp. -/
noncomputable def spreadAngleDenom (rayDir normal : Float3) : ℝ :=
  clampGrazing (-(dot3 rayDir normal))

/-- Embedding of the TEXLOD_SPREADANGLE_RTG1 branch of
computeSpreadAngleFromCurvatureIso. -/
noncomputable def computeSpreadAngleFromCurvatureIsoRTG1
    (curvature rayConeWidth : ℝ) (rayDir normal : Float3) : ℝ :=
  let dn := spreadAngleDenom rayDir normal
  let s := hlslSign curvature
  let curvatureScaled := curvature * rayConeWidth * 0.5 / dn
  2 * Real.arctan (|curvatureScaled| / Real.sqrt 2) * s

/-- Embedding of the TEXLOD_SPREADANGLE_ARC_LENGTH_UNOPTIMIZED branch of
computeSpreadAngleFromCurvatureIso. -/
noncomputable def computeSpreadAngleFromCurvatureIsoArcLength
    (curvature rayConeWidth : ℝ) (rayDir normal : Float3) : ℝ :=
  let dn := spreadAngleDenom rayDir normal
  let r := 1 / curvature
  let chord := rayConeWidth / dn
  let arcLength := Real.arcsin (chord / (2 * r)) * (2 * r)
  curvature * arcLength

/-- Embedding of the TEXLOD_SPREADANGLE_ARC_LENGTH_OPTIMIZED branch of
computeSpreadAngleFromCurvatureIso. -/
noncomputable def computeSpreadAngleFromCurvatureIsoOpt
    (curvature rayConeWidth : ℝ) (rayDir normal : Float3) : ℝ :=
  let dn := spreadAngleDenom rayDir normal
  curvature * rayConeWidth / dn

/-- Embedding of computeSpreadAngleFromCurvatureIso with the default
TEXLOD_SPREADANGLE_FROM_CURVATURE_MODE (the optimized arc-length branch). -/
noncomputable def computeSpreadAngleFromCurvatureIso
    (curvature rayConeWidth : ℝ) (rayDir normal : Float3) : ℝ :=
  computeSpreadAngleFromCurvatureIsoOpt curvature rayConeWidth rayDir normal

/-- Local ellipseAxis0 of computeAnisotropicEllipseAxes before its scaling:
the cone direction projected onto the triangle plane. -/
def anisoEllipseAxis0raw (faceNormal rayConeDir : Float3) : Float3 :=
  rayConeDir - (dot3 faceNormal rayConeDir) • faceNormal

/-- Local rayDirPlaneProjection0 of computeAnisotropicEllipseAxes. -/
def anisoProj0 (faceNormal rayConeDir : Float3) : Float3 :=
  anisoEllipseAxis0raw faceNormal rayConeDir
    - (dot3 rayConeDir (anisoEllipseAxis0raw faceNormal rayConeDir)) • rayConeDir

/-- Local ellipseAxis0 of computeAnisotropicEllipseAxes after its *= scaling. -/
noncomputable def anisoEllipseAxis0 (faceNormal rayConeDir : Float3) (r : ℝ) : Float3 :=
  (r / max 0.0001 (length3 (anisoProj0 faceNormal rayConeDir))) •
    anisoEllipseAxis0raw faceNormal rayConeDir

/-- Local ellipseAxis1 of computeAnisotropicEllipseAxes before its scaling;
in the source it is the cross product with the already scaled ellipseAxis0. -/
noncomputable def anisoEllipseAxis1raw (faceNormal rayConeDir : Float3) (r : ℝ) : Float3 :=
  cross3 faceNormal (anisoEllipseAxis0 faceNormal rayConeDir r)

/-- Local rayDirPlaneProjection1 of computeAnisotropicEllipseAxes. -/
noncomputable def anisoProj1 (faceNormal rayConeDir : Float3) (r : ℝ) : Float3 :=
  anisoEllipseAxis1raw faceNormal rayConeDir r
    - (dot3 rayConeDir (anisoEllipseAxis1raw faceNormal rayConeDir r)) • rayConeDir

/-- Local ellipseAxis1 of computeAnisotropicEllipseAxes after its *= scaling. -/
noncomputable def anisoEllipseAxis1 (faceNormal rayConeDir : Float3) (r : ℝ) : Float3 :=
  (r / max 0.0001 (length3 (anisoProj1 faceNormal rayConeDir r))) •
    anisoEllipseAxis1raw faceNormal rayConeDir r

/-- Triangle-derived denominator of computeAnisotropicEllipseAxes whose
reciprocal is oneOverAreaTriangle: dot(faceNormal, cross(edge01, edge02)). -/
def anisoAreaDenom (faceNormal p0 p1 p2 : Float3) : ℝ :=
  dot3 faceNormal (cross3 (p1 - p0) (p2 - p0))

/-- Barycentric-to-texture step of computeAnisotropicEllipseAxes: given the
endpoint offset edgeP, compute u, v and the texture-coordinate delta from
the interpolated texture coordinates at the intersection. -/
noncomputable def anisoGradient (faceNormal p0 p1 p2 : Float3) (t0 t1 t2 : Float2)
    (interpolatedTexCoordsAtIntersection : Float2) (edgeP : Float3) : Float2 :=
  let oneOverAreaTriangle := 1 / anisoAreaDenom faceNormal p0 p1 p2
  let u := dot3 faceNormal (cross3 edgeP (p2 - p0)) * oneOverAreaTriangle
  let v := dot3 faceNormal (cross3 (p1 - p0) edgeP) * oneOverAreaTriangle
  (1 - u - v) • t0 + u • t1 + v • t2 - interpolatedTexCoordsAtIntersection

/-- Embedding of computeAnisotropicEllipseAxes; returns
(texGradientX, texGradientY). -/
noncomputable def computeAnisotropicEllipseAxes (intersectionPoint faceNormal rayConeDir : Float3)
    (rayConeRadiusAtIntersection : ℝ) (p0 p1 p2 : Float3) (t0 t1 t2 : Float2)
    (interpolatedTexCoordsAtIntersection : Float2) : Float2 × Float2 :=
  let d := intersectionPoint - p0
  let texGradientX := anisoGradient faceNormal p0 p1 p2 t0 t1 t2
    interpolatedTexCoordsAtIntersection
    (d + anisoEllipseAxis0 faceNormal rayConeDir rayConeRadiusAtIntersection)
  let texGradientY := anisoGradient faceNormal p0 p1 p2 t0 t1 t2
    interpolatedTexCoordsAtIntersection
    (d + anisoEllipseAxis1 faceNormal rayConeDir rayConeRadiusAtIntersection)
  (texGradientX, texGradientY)

/-- Barycentric interpolation of the triangle texture coordinates at a point,
using the same face-normal-weighted cross products as the source (the claim
about computeAnisotropicEllipseAxes conditions its input
interpolatedTexCoordsAtIntersection on this value). -/
noncomputable def interpTexCoordsAt (faceNormal p0 p1 p2 : Float3) (t0 t1 t2 : Float2)
    (point : Float3) : Float2 :=
  let d := point - p0
  let oneOverAreaTriangle := 1 / anisoAreaDenom faceNormal p0 p1 p2
  let u := dot3 faceNormal (cross3 d (p2 - p0)) * oneOverAreaTriangle
  let v := dot3 faceNormal (cross3 (p1 - p0) d) * oneOverAreaTriangle
  (1 - u - v) • t0 + u • t1 + v • t2

/-- Embedding of the 3D overload of refractWithTIR; the Bool is the return
value (false on total internal reflection) and the Float3 the out parameter
refractedRayDir. -/
noncomputable def refractWithTIR3 (rayDir normal : Float3) (eta : ℝ) : Bool × Float3 :=
  let NdotD := dot3 normal rayDir
  let k := 1 - eta * eta * (1 - NdotD * NdotD)
  if k < 0 then
    (false, ⟨0, 0, 0⟩)
  else
    (true, eta • rayDir - (eta * NdotD + Real.sqrt k) • normal)

/-- Embedding of the 2D overload of refractWithTIR. -/
noncomputable def refractWithTIR2 (rayDir normal : Float2) (eta : ℝ) : Bool × Float2 :=
  let NdotD := dot2 normal rayDir
  let k := 1 - eta * eta * (1 - NdotD * NdotD)
  if k < 0 then
    (false, ⟨0, 0⟩)
  else
    (true, eta • rayDir - (eta * NdotD + Real.sqrt k) • normal)

/-- Embedding of rotate2DPlusMinus; returns (rotatedVecPlus, rotatedVecMinus). -/
noncomputable def rotate2DPlusMinus (vec : Float2) (angle : ℝ) : Float2 × Float2 :=
  let c := Real.cos angle
  let s := Real.sin angle
  let cx := c * vec.x
  let sy := s * vec.y
  let sx := s * vec.x
  let cy := c * vec.y
  (⟨cx - sy, sx + cy⟩, ⟨cx + sy, -sx + cy⟩)

/-- Embedding of the orthogonal helper (90 degree counter-clockwise rotation). -/
def orthogonal (vec : Float2) : Float2 := ⟨-vec.y, vec.x⟩

/-- Local xAxis of computeRayConeForRefraction. -/
noncomputable def refrXAxis (rayDir normal : Float3) : Float3 :=
  normalize3 (rayDir - (dot3 normal rayDir) • normal)

/-- Local incidentDir2D of computeRayConeForRefraction (projection of the
incident direction onto the xAxis/normal 2D frame). -/
noncomputable def refrIncidentDir2D (rayDir normal : Float3) : Float2 :=
  ⟨dot3 rayDir (refrXAxis rayDir normal), dot3 rayDir normal⟩

/-- Local refractedDir2D of computeRayConeForRefraction. -/
noncomputable def refrRefractedDir2D (rayDir normal refractedRayDir : Float3) : Float2 :=
  ⟨dot3 refractedRayDir (refrXAxis rayDir normal), dot3 refractedRayDir normal⟩

/-- Local widthSign of computeRayConeForRefraction. -/
noncomputable def refrWidthSign (rayCone : RayCone) : ℝ :=
  if 0 < rayCone.getWidth then 1 else -1

/-- Locals (incidentDir2D_u, incidentDir2D_l) of computeRayConeForRefraction:
the upper and lower bounding lines of the incident cone in 2D. -/
noncomputable def refrIncidentDirsUL (rayCone : RayCone) (rayDir normal : Float3) :
    Float2 × Float2 :=
  rotate2DPlusMinus (refrIncidentDir2D rayDir normal)
    (rayCone.getSpreadAngle * refrWidthSign rayCone * 0.5)

/-- Local tu of computeRayConeForRefraction (top upper point of the cone). -/
noncomputable def refrTu (rayCone : RayCone) (rayDir normal : Float3) : Float2 :=
  (rayCone.getWidth * 0.5) • orthogonal (refrIncidentDir2D rayDir normal)

/-- Local hitPoint_u_x of computeRayConeForRefraction. -/
noncomputable def refrHitPointUX (rayCone : RayCone) (rayDir normal : Float3) : ℝ :=
  let tu := refrTu rayCone rayDir normal
  let u := (refrIncidentDirsUL rayCone rayDir normal).1
  tu.x + u.x * (-tu.y / u.y)

/-- Local hitPoint_l_x of computeRayConeForRefraction. -/
noncomputable def refrHitPointLX (rayCone : RayCone) (rayDir normal : Float3) : ℝ :=
  let tl := -refrTu rayCone rayDir normal
  let l := (refrIncidentDirsUL rayCone rayDir normal).2
  tl.x + l.x * (-tl.y / l.y)

/-- Local normalSign of computeRayConeForRefraction. -/
noncomputable def refrNormalSign (rayCone : RayCone) (rayDir normal : Float3) : ℝ :=
  if refrHitPointLX rayCone rayDir normal < refrHitPointUX rayCone rayDir normal then 1
  else -1

/-- Locals (normal2D_u, normal2D_l) of computeRayConeForRefraction. -/
noncomputable def refrNormalsUL (rayCone : RayCone) (rayDir normal : Float3)
    (normalSpreadAngle : ℝ) : Float2 × Float2 :=
  rotate2DPlusMinus ⟨0, 1⟩
    (-normalSpreadAngle * refrNormalSign rayCone rayDir normal * 0.5)

/-- In-2D refraction of one bounding line of computeRayConeForRefraction, with
the grazing fallback of the source when the bounding line itself TIRs. -/
noncomputable def refrBound2D (incident normal2D : Float2) (eta : ℝ) : Float2 :=
  let p := refractWithTIR2 incident normal2D eta
  if p.1 then p.2
  else normalize2 (incident - (dot2 normal2D incident) • normal2D)

/-- Local refractedDir2D_u of computeRayConeForRefraction. -/
noncomputable def refrRefractedDirU (rayCone : RayCone) (rayDir normal : Float3)
    (normalSpreadAngle eta : ℝ) : Float2 :=
  refrBound2D (refrIncidentDirsUL rayCone rayDir normal).1
    (refrNormalsUL rayCone rayDir normal normalSpreadAngle).1 eta

/-- Local refractedDir2D_l of computeRayConeForRefraction. -/
noncomputable def refrRefractedDirL (rayCone : RayCone) (rayDir normal : Float3)
    (normalSpreadAngle eta : ℝ) : Float2 :=
  refrBound2D (refrIncidentDirsUL rayCone rayDir normal).2
    (refrNormalsUL rayCone rayDir normal normalSpreadAngle).2 eta

/-- Local signA of computeRayConeForRefraction. -/
noncomputable def refrSignA (rayCone : RayCone) (rayDir normal : Float3)
    (normalSpreadAngle eta : ℝ) : ℝ :=
  let u := refrRefractedDirU rayCone rayDir normal normalSpreadAngle eta
  let l := refrRefractedDirL rayCone rayDir normal normalSpreadAngle eta
  if (u.x * l.y - u.y * l.x) * refrNormalSign rayCone rayDir normal < 0 then 1 else -1

/-- Local spreadAngle of computeRayConeForRefraction. -/
noncomputable def refrSpreadAngle (rayCone : RayCone) (rayDir normal : Float3)
    (normalSpreadAngle eta : ℝ) : ℝ :=
  let u := refrRefractedDirU rayCone rayDir normal normalSpreadAngle eta
  let l := refrRefractedDirL rayCone rayDir normal normalSpreadAngle eta
  Real.arccos (dot2 u l) * refrSignA rayCone rayDir normal normalSpreadAngle eta

/-- Local width of computeRayConeForRefraction. -/
noncomputable def refrWidth (rayCone : RayCone) (rayDir normal : Float3)
    (normalSpreadAngle eta : ℝ) (refractedRayDir : Float3) : ℝ :=
  let u := refrRefractedDirU rayCone rayDir normal normalSpreadAngle eta
  let l := refrRefractedDirL rayCone rayDir normal normalSpreadAngle eta
  let refractDirOrtho2D := orthogonal (refrRefractedDir2D rayDir normal refractedRayDir)
  (-refrHitPointUX rayCone rayDir normal * u.y) / dot2 refractDirOrtho2D (orthogonal u)
    + (refrHitPointLX rayCone rayDir normal * l.y) / dot2 refractDirOrtho2D (orthogonal l)

/-- Embedding of computeRayConeForRefraction, assembled from the locals above
which mirror the source body line by line (rayOrg and hitPoint are parameters
of the source that its body never reads). -/
noncomputable def computeRayConeForRefraction (rayCone : RayCone)
    (rayOrg rayDir hitPoint normal : Float3) (normalSpreadAngle eta : ℝ)
    (refractedRayDir : Float3) : RayCone :=
  RayCone.make (refrWidth rayCone rayDir normal normalSpreadAngle eta refractedRayDir)
    (refrSpreadAngle rayCone rayDir normal normalSpreadAngle eta)

/-- Embedding of refractRayCone; returns (success, updated cone, out
refractedRayDir).  On total internal reflection the source returns false
before touching the inout ray cone. -/
noncomputable def refractRayCone (rayCone : RayCone) (rayOrg rayDir hitPoint normal : Float3)
    (normalSpreadAngle eta : ℝ) : Bool × RayCone × Float3 :=
  let p := refractWithTIR3 rayDir normal eta
  if p.1 then
    (true,
      computeRayConeForRefraction rayCone rayOrg rayDir hitPoint normal
        normalSpreadAngle eta p.2,
      p.2)
  else
    (false, rayCone, p.2)

/-- Ray differential payload: the embedding of the RayDiff struct. -/
@[ext]
structure RayDiff where
  dOdx : Float3
  dOdy : Float3
  dDdx : Float3
  dDdy : Float3

/-- Embedding of RayDiff::make (via RayDiff::__init). -/
def RayDiff.make (dOdx dOdy dDdx dDdy : Float3) : RayDiff := ⟨dOdx, dOdy, dDdx, dDdy⟩

/-- Embedding of the float3 overload of interpolateDifferentials; the triple
holds the three per-vertex values, and (dx, dy) is returned. -/
def interpolateDifferentials3 (dBarydx dBarydy : Float2)
    (vertexValues : Float3 × Float3 × Float3) : Float3 × Float3 :=
  let delta1 := vertexValues.2.1 - vertexValues.1
  let delta2 := vertexValues.2.2 - vertexValues.1
  (dBarydx.x • delta1 + dBarydx.y • delta2, dBarydy.x • delta1 + dBarydy.y • delta2)

/-- Embedding of computeNormalDifferentials; returns (dNdx, dNdy). -/
noncomputable def computeNormalDifferentials (rayDiff : RayDiff)
    (nonNormalizedInterpolatedNormalW : Float3) (dBarydx dBarydy : Float2)
    (normals : Float3 × Float3 × Float3) : Float3 × Float3 :=
  let NN := dot3 nonNormalizedInterpolatedNormalW nonNormalizedInterpolatedNormalW
  let rcpNN := 1 / (NN * Real.sqrt NN)
  let dn := interpolateDifferentials3 dBarydx dBarydy normals
  (rcpNN • (NN • dn.1 -
      (dot3 nonNormalizedInterpolatedNormalW dn.1) • nonNormalizedInterpolatedNormalW),
    rcpNN • (NN • dn.2 -
      (dot3 nonNormalizedInterpolatedNormalW dn.2) • nonNormalizedInterpolatedNormalW))

/-- Embedding of the 11-argument computeRayDifferentialRefraction (Igehy
equations 16 to 19); the refractedDir parameter is carried by the source
signature but never read by the body. -/
noncomputable def computeRayDifferentialRefraction (rayDiff : RayDiff)
    (rayDir nonNormalizedInterpolatedNormalW normalizedInterpolatedNormalW : Float3)
    (dBarydx dBarydy : Float2) (normalsW : Float3 × Float3 × Float3)
    (eta : ℝ) (refractedDir : Float3) (NdotD NdotDprime mu : ℝ) : RayDiff :=
  let dN := computeNormalDifferentials rayDiff nonNormalizedInterpolatedNormalW
    dBarydx dBarydy normalsW
  let dDNdx := dot3 rayDiff.dDdx normalizedInterpolatedNormalW + dot3 rayDir dN.1
  let dDNdy := dot3 rayDiff.dDdy normalizedInterpolatedNormalW + dot3 rayDir dN.2
  let dMudx := eta * (1 + eta * NdotD / NdotDprime) * dDNdx
  let dMudy := eta * (1 + eta * NdotD / NdotDprime) * dDNdy
  let dOdx := rayDiff.dOdx
  let dOdy := rayDiff.dOdy
  let dDdx := eta • rayDiff.dDdx - (mu • dN.1 + dMudx • normalizedInterpolatedNormalW)
  let dDdy := eta • rayDiff.dDdy - (mu • dN.2 + dMudy • normalizedInterpolatedNormalW)
  RayDiff.make dOdx dOdy dDdx dDdy

/-- Embedding of refractRayDifferential; returns (success, updated ray
differential, out refractedDir).  On total internal reflection the source
zeroes refractedDir and returns false without touching the inout rayDiff. -/
noncomputable def refractRayDifferential (rayDiff : RayDiff)
    (rayDir nonNormalizedInterpolatedNormalW normalizedInterpolatedNormalW : Float3)
    (dBarydx dBarydy : Float2) (normalsW : Float3 × Float3 × Float3)
    (eta : ℝ) : Bool × RayDiff × Float3 :=
  let NdotD := dot3 normalizedInterpolatedNormalW rayDir
  let k := eta * eta * (1 - NdotD * NdotD)
  if 1 < k then
    (false, rayDiff, ⟨0, 0, 0⟩)
  else
    let NdotDprime := Real.sqrt (1 - k)
    let mu := eta * NdotD + NdotDprime
    let refractedDir := eta • rayDir - mu • normalizedInterpolatedNormalW
    (true,
      computeRayDifferentialRefraction rayDiff rayDir nonNormalizedInterpolatedNormalW
        normalizedInterpolatedNormalW dBarydx dBarydy normalsW eta refractedDir
        NdotD NdotDprime mu,
      refractedDir)

/-- Estimator struct TriangleCurvature_Average (stateless). -/
structure TriangleCurvature_Average where

/-- Embedding of TriangleCurvature_Average::eval. -/
noncomputable def TriangleCurvature_Average.eval (_self : TriangleCurvature_Average)
    (edge01 edge02 edge12 : Float3) (curvature01 curvature02 curvature12 : ℝ) : ℝ :=
  (curvature01 + curvature02 + curvature12) / 3

/-- Estimator struct TriangleCurvature_Max (stateless). -/
structure TriangleCurvature_Max where

/-- Embedding of TriangleCurvature_Max::eval. -/
noncomputable def TriangleCurvature_Max.eval (_self : TriangleCurvature_Max)
    (edge01 edge02 edge12 : Float3) (curvature01 curvature02 curvature12 : ℝ) : ℝ :=
  let minCurvature := min curvature01 (min curvature02 curvature12)
  let maxCurvature := max curvature01 (max curvature02 curvature12)
  if |minCurvature| < maxCurvature then maxCurvature else minCurvature

/-- Estimator struct TriangleCurvature_DirClosestDP. -/
structure TriangleCurvature_DirClosestDP where
  rayDir : Float3

/-- Embedding of TriangleCurvature_DirClosestDP::eval. -/
noncomputable def TriangleCurvature_DirClosestDP.eval (self : TriangleCurvature_DirClosestDP)
    (edge01 edge02 edge12 : Float3) (curvature01 curvature02 curvature12 : ℝ) : ℝ :=
  let d01 := |dot3 self.rayDir (normalize3 edge01)|
  let d02 := |dot3 self.rayDir (normalize3 edge02)|
  let d12 := |dot3 self.rayDir (normalize3 edge12)|
  if d01 < d02 then
    if d01 < d12 then (curvature02 * d02 + curvature12 * d12) / (d02 + d12)
    else (curvature01 * d01 + curvature02 * d02) / (d01 + d02)
  else
    if d02 < d12 then (curvature01 * d01 + curvature12 * d12) / (d01 + d12)
    else (curvature01 * d01 + curvature02 * d02) / (d01 + d02)

/-- Estimator struct TriangleCurvature_Directional. -/
structure TriangleCurvature_Directional where
  rayDir : Float3

/-- Embedding of TriangleCurvature_Directional::eval (the live #if 1 branch of
the source: interpolation of the two closest angles). -/
noncomputable def TriangleCurvature_Directional.eval (self : TriangleCurvature_Directional)
    (edge01 edge02 edge12 : Float3) (curvature01 curvature02 curvature12 : ℝ) : ℝ :=
  let usedDir := self.rayDir
  let a01 := Real.arccos |dot3 usedDir (normalize3 edge01)|
  let a02 := Real.arccos |dot3 usedDir (normalize3 edge02)|
  let a12 := Real.arccos |dot3 usedDir (normalize3 edge12)|
  if a02 < a01 then
    if a12 < a01 then (curvature02 * a12 + curvature12 * a02) / (a02 + a12)
    else (curvature01 * a02 + curvature02 * a01) / (a01 + a02)
  else
    if a12 < a02 then (curvature01 * a12 + curvature12 * a01) / (a01 + a12)
    else (curvature01 * a02 + curvature02 * a01) / (a01 + a02)

/-- Estimator struct TriangleCurvature_EllipseVis. -/
structure TriangleCurvature_EllipseVis where
  rayDir : Float3
  rayConeWidth : ℝ
  rayConeAngle : ℝ

/-- Embedding of TriangleCurvature_EllipseVis::eval (with the live #else
branch at the end: the curvature generating the largest spread is kept). -/
noncomputable def TriangleCurvature_EllipseVis.eval (self : TriangleCurvature_EllipseVis)
    (edge01 edge02 edge12 : Float3) (curvature01 curvature02 curvature12 : ℝ) : ℝ :=
  let minCurvature := min curvature01 (min curvature02 curvature12)
  let maxCurvature := max curvature01 (max curvature02 curvature12)
  let geoNormal := normalize3 (cross3 edge01 edge02)
  let a1 := self.rayDir - (dot3 geoNormal self.rayDir) • geoNormal
  let a2 := cross3 geoNormal a1
  let r := self.rayConeWidth * 0.5
  let a1 := (r / length3 (a1 - (dot3 self.rayDir a1) • self.rayDir)) • a1
  let a2 := (r / length3 (a2 - (dot3 self.rayDir a2) • self.rayDir)) • a2
  let l1 := length3 a1
  let l2 := length3 a2
  let minEdge := if curvature01 = minCurvature then edge01
    else if curvature02 = minCurvature then edge02 else edge12
  let maxEdge := if curvature01 = maxCurvature then edge01
    else if curvature02 = maxCurvature then edge02 else edge12
  let row1 := (1 / l1) • a1
  let row2 := (1 / l2) • a2
  let edge0TS := normalize2 ⟨dot3 row1 minEdge, dot3 row2 minEdge⟩
  let edge1TS := normalize2 ⟨dot3 row1 maxEdge, dot3 row2 maxEdge⟩
  let aaE0 := (l1 * l2) /
    Real.sqrt (l1 * l1 * edge0TS.y * edge0TS.y + l2 * l2 * edge0TS.x * edge0TS.x)
  let aaE1 := (l1 * l2) /
    Real.sqrt (l1 * l1 * edge1TS.y * edge1TS.y + l2 * l2 * edge1TS.x * edge1TS.x)
  let maxA := max aaE0 aaE1
  let k0 := minCurvature * aaE0 / maxA
  let k1 := maxCurvature * aaE1 / maxA
  let dn := clampGrazing (-(dot3 self.rayDir geoNormal))
  let surfaceSpreadAngle0 := k0 * self.rayConeWidth / dn * 2
  let surfaceSpreadAngle1 := k1 * self.rayConeWidth / dn * 2
  if |self.rayConeAngle + surfaceSpreadAngle1| < |self.rayConeAngle + surfaceSpreadAngle0|
  then k0 else k1

/-- Estimator struct TriangleCurvature_Zero (stateless). -/
structure TriangleCurvature_Zero where

/-- Embedding of TriangleCurvature_Zero::eval. -/
def TriangleCurvature_Zero.eval (_self : TriangleCurvature_Zero)
    (edge01 edge02 edge12 : Float3) (curvature01 curvature02 curvature12 : ℝ) : ℝ := 0

/-! ## Helper lemmas -/

/-- Scaling a float3 scales its length by the absolute scale factor. -/
theorem length3_smul (t : ℝ) (v : Float3) : length3 (t • v) = |t| * length3 v := by
  unfold length3
  rw [show dot3 (t • v) (t • v) = t ^ 2 * dot3 v v by simp [dot3]; ring]
  rw [Real.sqrt_mul (sq_nonneg t), Real.sqrt_sq_eq_abs]

/-- Scaling a float2 scales its length by the absolute scale factor. -/
theorem length2_smul (t : ℝ) (v : Float2) : length2 (t • v) = |t| * length2 v := by
  unfold length2
  rw [show dot2 (t • v) (t • v) = t ^ 2 * dot2 v v by simp [dot2]; ring]
  rw [Real.sqrt_mul (sq_nonneg t), Real.sqrt_sq_eq_abs]

/-- The grazing clamp keeps a nonzero value at least 1e-5 away from zero. -/
theorem clampGrazing_lower_bound (x : ℝ) (hx : x ≠ 0) : (1e-5 : ℝ) ≤ |clampGrazing x| := by
  unfold clampGrazing hlslSign
  rcases lt_trichotomy x 0 with hneg | hzero | hpos
  · by_cases h1 : |x| < 1e-5
    · rw [if_pos h1, if_pos hneg,
        show ((-1 : ℝ)) * 1e-5 = -(1e-5) by norm_num, abs_neg,
        abs_of_nonneg (by norm_num : (0 : ℝ) ≤ 1e-5)]
    · rw [if_neg h1]
      exact le_of_not_lt h1
  · exact absurd hzero hx
  · by_cases h1 : |x| < 1e-5
    · rw [if_pos h1, if_neg (not_lt.mpr hpos.le), if_neg hx, one_mul,
        abs_of_nonneg (by norm_num : (0 : ℝ) ≤ 1e-5)]
    · rw [if_neg h1]
      exact le_of_not_lt h1

/-- The grazing clamp never maps a nonzero value to zero. -/
theorem clampGrazing_ne_zero (x : ℝ) (hx : x ≠ 0) : clampGrazing x ≠ 0 := by
  intro h0
  have h := clampGrazing_lower_bound x hx
  rw [h0, abs_zero] at h
  norm_num at h

/-- The 3D refractWithTIR reports failure exactly on the TIR condition. -/
theorem refractWithTIR3_false_iff (rayDir normal : Float3) (eta : ℝ) :
    (refractWithTIR3 rayDir normal eta).1 = false ↔
      1 < eta ^ 2 * (1 - dot3 normal rayDir ^ 2) := by
  unfold refractWithTIR3
  by_cases h : 1 - eta * eta * (1 - dot3 normal rayDir * dot3 normal rayDir) < 0
  · simp [h]
    nlinarith
  · simp [h]
    nlinarith [not_lt.mp h]

/-- The embedded refractRayDifferential reports failure exactly on the TIR
condition. -/
theorem refractRayDifferential_false_iff (rayDiff : RayDiff) (rayDir nonN normN : Float3)
    (dBarydx dBarydy : Float2) (normalsW : Float3 × Float3 × Float3) (eta : ℝ) :
    (refractRayDifferential rayDiff rayDir nonN normN dBarydx dBarydy normalsW eta).1 = false ↔
      1 < eta ^ 2 * (1 - dot3 normN rayDir ^ 2) := by
  unfold refractRayDifferential
  by_cases h : 1 < eta * eta * (1 - dot3 normN rayDir * dot3 normN rayDir)
  · simp [h]
    nlinarith
  · simp [h]
    nlinarith [not_lt.mp h]

/-- The embedded refractRayCone reports failure exactly when refractWithTIR
does. -/
theorem refractRayCone_false_iff (rayCone : RayCone) (rayOrg rayDir hitPoint normal : Float3)
    (normalSpreadAngle eta : ℝ) :
    (refractRayCone rayCone rayOrg rayDir hitPoint normal normalSpreadAngle eta).1 = false ↔
      1 < eta ^ 2 * (1 - dot3 normal rayDir ^ 2) := by
  rw [← refractWithTIR3_false_iff rayDir normal eta]
  unfold refractRayCone
  by_cases h : (refractWithTIR3 rayDir normal eta).1
  · simp [h]
  · simp [Bool.not_eq_true] at h
    simp [h]

/-! ## Claim C8 -/

/-- C8: propagateDistance returns a cone whose width is
spreadAngle * hitT + width with the spread angle unchanged; in particular a
cone with zero spread angle keeps its width for every hit distance. -/
theorem propagateDistance_spec (rc : RayCone) (hitT : ℝ) :
    (rc.propagateDistance hitT).width = rc.spreadAngle * hitT + rc.width ∧
    (rc.propagateDistance hitT).spreadAngle = rc.spreadAngle ∧
    (rc.spreadAngle = 0 → (rc.propagateDistance hitT).width = rc.width) := by
  refine ⟨rfl, rfl, fun h => ?_⟩
  simp [RayCone.propagateDistance, RayCone.make, RayCone.getSpreadAngle, RayCone.getWidth, h]

/-- Witness for C8 at the concrete cone (width 2, spread angle 0) and
hitT = 5. -/
theorem propagateDistance_spec_witness :
    ((RayCone.make 2 0).propagateDistance 5).width =
      (RayCone.make 2 0).spreadAngle * 5 + (RayCone.make 2 0).width ∧
    ((RayCone.make 2 0).propagateDistance 5).spreadAngle = (RayCone.make 2 0).spreadAngle ∧
    ((RayCone.make 2 0).propagateDistance 5).width = (RayCone.make 2 0).width :=
  ⟨(propagateDistance_spec (RayCone.make 2 0) 5).1,
   (propagateDistance_spec (RayCone.make 2 0) 5).2.1,
   (propagateDistance_spec (RayCone.make 2 0) 5).2.2 rfl⟩

/-! ## Claim C6 -/

/-- C6: every non-Zero curvature estimator returns exactly 0 when all three
edge curvatures are 0, for arbitrary edge vectors, ray direction and cone
state. -/
theorem curvature_estimators_vanish_at_zero (rayDirA rayDirB : Float3) (w theta : ℝ)
    (edge01 edge02 edge12 : Float3) :
    TriangleCurvature_Average.eval ⟨⟩ edge01 edge02 edge12 0 0 0 = 0 ∧
    TriangleCurvature_Max.eval ⟨⟩ edge01 edge02 edge12 0 0 0 = 0 ∧
    TriangleCurvature_DirClosestDP.eval ⟨rayDirA⟩ edge01 edge02 edge12 0 0 0 = 0 ∧
    TriangleCurvature_Directional.eval ⟨rayDirA⟩ edge01 edge02 edge12 0 0 0 = 0 ∧
    TriangleCurvature_EllipseVis.eval ⟨rayDirB, w, theta⟩ edge01 edge02 edge12 0 0 0 = 0 := by
  refine ⟨by norm_num [TriangleCurvature_Average.eval], ?_, ?_, ?_, ?_⟩
  · simp [TriangleCurvature_Max.eval]
  · unfold TriangleCurvature_DirClosestDP.eval
    dsimp only
    split_ifs <;> simp
  · unfold TriangleCurvature_Directional.eval
    dsimp only
    split_ifs <;> simp
  · unfold TriangleCurvature_EllipseVis.eval
    dsimp only
    split_ifs <;> simp

/-! ## Claim C3 -/

/-- C3: refractRayCone fails exactly when eta^2 * (1 - dot(normal, rayDir)^2)
exceeds 1, refractRayDifferential fails under the same condition, and on every
common input the two families make the same success/failure decision. -/
theorem refraction_tir_decisions_agree (rayCone : RayCone)
    (rayOrg rayDir hitPoint normal : Float3) (normalSpreadAngle : ℝ)
    (rayDiff : RayDiff) (nonN : Float3) (dBarydx dBarydy : Float2)
    (normalsW : Float3 × Float3 × Float3) (eta : ℝ) :
    ((refractRayCone rayCone rayOrg rayDir hitPoint normal normalSpreadAngle eta).1 = false ↔
      1 < eta ^ 2 * (1 - dot3 normal rayDir ^ 2)) ∧
    ((refractRayDifferential rayDiff rayDir nonN normal dBarydx dBarydy normalsW eta).1
        = false ↔
      1 < eta ^ 2 * (1 - dot3 normal rayDir ^ 2)) ∧
    (refractRayCone rayCone rayOrg rayDir hitPoint normal normalSpreadAngle eta).1 =
      (refractRayDifferential rayDiff rayDir nonN normal dBarydx dBarydy normalsW eta).1 := by
  have h1 := refractRayCone_false_iff rayCone rayOrg rayDir hitPoint normal normalSpreadAngle eta
  have h2 := refractRayDifferential_false_iff rayDiff rayDir nonN normal dBarydx dBarydy
    normalsW eta
  refine ⟨h1, h2, ?_⟩
  by_cases hc : 1 < eta ^ 2 * (1 - dot3 normal rayDir ^ 2)
  · rw [h1.mpr hc, h2.mpr hc]
  · rcases Bool.eq_false_or_eq_true
      (refractRayCone rayCone rayOrg rayDir hitPoint normal normalSpreadAngle eta).1 with
      hb | hb
    · rcases Bool.eq_false_or_eq_true
        (refractRayDifferential rayDiff rayDir nonN normal dBarydx dBarydy normalsW eta).1 with
        hd | hd
      · rw [hb, hd]
      · exact absurd (h2.mp hd) hc
    · exact absurd (h1.mp hb) hc

/-! ## Claim C10 -/

/-- C10: on total internal reflection the failure paths are fully defined:
both refractWithTIR overloads and refractRayDifferential zero the refracted
direction when they return false, and refractRayCone leaves the inout ray
cone exactly as passed when it returns false. -/
theorem refraction_failure_paths_defined (rayDir normal : Float3) (rayDir2 normal2 : Float2)
    (rayCone : RayCone) (rayOrg hitPoint : Float3) (normalSpreadAngle : ℝ)
    (rayDiff : RayDiff) (nonN : Float3) (dBarydx dBarydy : Float2)
    (normalsW : Float3 × Float3 × Float3) (eta : ℝ) :
    ((refractWithTIR3 rayDir normal eta).1 = false →
      (refractWithTIR3 rayDir normal eta).2 = ⟨0, 0, 0⟩) ∧
    ((refractWithTIR2 rayDir2 normal2 eta).1 = false →
      (refractWithTIR2 rayDir2 normal2 eta).2 = ⟨0, 0⟩) ∧
    ((refractRayDifferential rayDiff rayDir nonN normal dBarydx dBarydy normalsW eta).1
        = false →
      (refractRayDifferential rayDiff rayDir nonN normal dBarydx dBarydy normalsW eta).2.2
        = ⟨0, 0, 0⟩) ∧
    ((refractRayCone rayCone rayOrg rayDir hitPoint normal normalSpreadAngle eta).1 = false →
      (refractRayCone rayCone rayOrg rayDir hitPoint normal normalSpreadAngle eta).2.1
        = rayCone) := by
  refine ⟨?_, ?_, ?_, ?_⟩
  · unfold refractWithTIR3
    by_cases h : 1 - eta * eta * (1 - dot3 normal rayDir * dot3 normal rayDir) < 0 <;>
      simp [h]
  · unfold refractWithTIR2
    by_cases h : 1 - eta * eta * (1 - dot2 normal2 rayDir2 * dot2 normal2 rayDir2) < 0 <;>
      simp [h]
  · unfold refractRayDifferential
    by_cases h : 1 < eta * eta * (1 - dot3 normal rayDir * dot3 normal rayDir) <;> simp [h]
  · unfold refractRayCone
    by_cases h : (refractWithTIR3 rayDir normal eta).1 <;> simp [h]

/-- Witness for C10 at a concrete total-internal-reflection input
(rayDir perpendicular to the normal, eta = 2). -/
theorem refraction_failure_paths_defined_witness :
    (refractWithTIR3 ⟨1, 0, 0⟩ ⟨0, 1, 0⟩ 2).2 = ⟨0, 0, 0⟩ ∧
    (refractWithTIR2 ⟨1, 0⟩ ⟨0, 1⟩ 2).2 = ⟨0, 0⟩ ∧
    (refractRayDifferential (RayDiff.make ⟨0, 0, 0⟩ ⟨0, 0, 0⟩ ⟨0, 0, 0⟩ ⟨0, 0, 0⟩)
      ⟨1, 0, 0⟩ ⟨0, 1, 0⟩ ⟨0, 1, 0⟩ ⟨0, 0⟩ ⟨0, 0⟩ ⟨⟨0, 0, 0⟩, ⟨0, 0, 0⟩, ⟨0, 0, 0⟩⟩ 2).2.2
      = ⟨0, 0, 0⟩ ∧
    (refractRayCone (RayCone.make 1 2) ⟨0, 0, 0⟩ ⟨1, 0, 0⟩ ⟨0, 0, 0⟩ ⟨0, 1, 0⟩ 0 2).2.1
      = RayCone.make 1 2 := by
  have h := refraction_failure_paths_defined ⟨1, 0, 0⟩ ⟨0, 1, 0⟩ ⟨1, 0⟩ ⟨0, 1⟩
    (RayCone.make 1 2) ⟨0, 0, 0⟩ ⟨0, 0, 0⟩ 0
    (RayDiff.make ⟨0, 0, 0⟩ ⟨0, 0, 0⟩ ⟨0, 0, 0⟩ ⟨0, 0, 0⟩) ⟨0, 1, 0⟩ ⟨0, 0⟩ ⟨0, 0⟩
    ⟨⟨0, 0, 0⟩, ⟨0, 0, 0⟩, ⟨0, 0, 0⟩⟩ 2
  refine ⟨h.1 ?_, h.2.1 ?_, h.2.2.1 ?_, h.2.2.2 ?_⟩
  · unfold refractWithTIR3
    norm_num [dot3]
  · unfold refractWithTIR2
    norm_num [dot2]
  · unfold refractRayDifferential
    norm_num [dot3]
  · unfold refractRayCone refractWithTIR3
    norm_num [dot3]

/-! ## Claim C1 -/

/-- C1 counterexample: at a fully degenerate (zero-area) triangle the
triangle-derived denominator of computeAnisotropicEllipseAxes,
dot(faceNormal, cross(edge01, edge02)), is exactly 0 and in particular is
not floored to 0.0001, so its reciprocal oneOverAreaTriangle is a division
by zero. -/
theorem aniso_area_denominator_unguarded_counterexample :
    anisoAreaDenom ⟨0, 0, 1⟩ ⟨0, 0, 0⟩ ⟨0, 0, 0⟩ ⟨0, 0, 0⟩ = 0 ∧
    ¬ (0.0001 : ℝ) ≤ anisoAreaDenom ⟨0, 0, 1⟩ ⟨0, 0, 0⟩ ⟨0, 0, 0⟩ ⟨0, 0, 0⟩ := by
  constructor
  · norm_num [anisoAreaDenom, cross3, dot3]
  · norm_num [anisoAreaDenom, cross3, dot3]

/-- C1 amended: the max(0.0001, ...) floors of computeAnisotropicEllipseAxes
guard the two ellipse-axis projection-length denominators, which are hence
always at least 0.0001; the triangle-area denominator is inverted without a
floor, and for a degenerate triangle (all vertices equal) it is exactly 0. -/
theorem aniso_guards_on_projection_lengths (faceNormal rayConeDir : Float3) (r : ℝ)
    (p : Float3) :
    (0.0001 : ℝ) ≤ max 0.0001 (length3 (anisoProj0 faceNormal rayConeDir)) ∧
    (0.0001 : ℝ) ≤ max 0.0001 (length3 (anisoProj1 faceNormal rayConeDir r)) ∧
    anisoAreaDenom faceNormal p p p = 0 := by
  refine ⟨le_max_left _ _, le_max_left _ _, ?_⟩
  simp only [anisoAreaDenom, cross3, dot3, Float3_sub_x, Float3_sub_y, Float3_sub_z]
  ring

/-! ## Claim C2 -/

/-- C2 counterexample: at the exactly-grazing configuration
dot(rayDir, normal) = 0 the clamped denominator of
computeSpreadAngleFromCurvatureIso is sign(0) * 1e-5 = 0, not an epsilon with
preserved sign, so the spread-angle division is a division by zero. -/
theorem spreadAngleDenom_grazing_counterexample :
    spreadAngleDenom ⟨1, 0, 0⟩ ⟨0, 1, 0⟩ = 0 := by
  unfold spreadAngleDenom clampGrazing hlslSign
  norm_num [dot3]

/-- C2 amended: whenever dot(rayDir, normal) is nonzero, the clamped
denominator dn of computeSpreadAngleFromCurvatureIso has magnitude at least
1e-5 and in particular is nonzero, so none of the three formulations divides
by zero; exactly at dot(rayDir, normal) = 0 the clamp yields 0. -/
theorem spreadAngleDenom_bounded_away_from_zero (rayDir normal : Float3)
    (h : dot3 rayDir normal ≠ 0) :
    (1e-5 : ℝ) ≤ |spreadAngleDenom rayDir normal| ∧ spreadAngleDenom rayDir normal ≠ 0 :=
  ⟨clampGrazing_lower_bound _ (neg_ne_zero.mpr h),
   clampGrazing_ne_zero _ (neg_ne_zero.mpr h)⟩

/-- Witness for the amended C2 at a concrete non-grazing input. -/
theorem spreadAngleDenom_bounded_away_from_zero_witness :
    (1e-5 : ℝ) ≤ |spreadAngleDenom ⟨0, 0, -1⟩ ⟨0, 0, 1⟩| ∧
    spreadAngleDenom ⟨0, 0, -1⟩ ⟨0, 0, 1⟩ ≠ 0 :=
  spreadAngleDenom_bounded_away_from_zero ⟨0, 0, -1⟩ ⟨0, 0, 1⟩ (by norm_num [dot3])

/-! ## Claim C7 -/

/-- C7: computeLOD is non-decreasing in the absolute cone width (for fixed
other inputs with a positive smaller width, the usual domain of log2) and
non-decreasing as the incidence becomes more grazing (the absolute normal
dot product decreases while staying positive). -/
theorem computeLOD_monotone :
    (∀ (K : ℝ) (rayDir normal : Float3) (c1 c2 : RayCone),
      0 < |c1.width| → |c1.width| ≤ |c2.width| →
      c1.computeLOD K rayDir normal false ≤ c2.computeLOD K rayDir normal false) ∧
    (∀ (K : ℝ) (c : RayCone) (d1 n1 d2 n2 : Float3),
      0 < |dot3 d2 n2| → |dot3 d2 n2| ≤ |dot3 d1 n1| →
      c.computeLOD K d1 n1 false ≤ c.computeLOD K d2 n2 false) := by
  constructor
  · intro K rayDir normal c1 c2 hw1 hw12
    simp only [RayCone.computeLOD, RayCone.getWidth, Bool.false_eq_true, if_false]
    apply add_le_add_left
    rcases eq_or_lt_of_le (abs_nonneg (dot3 rayDir normal)) with hnt | hnt
    · rw [← hnt, div_zero, div_zero]
    · exact Real.logb_le_logb_of_le (by norm_num) (div_pos hw1 hnt)
        ((div_le_div_iff_of_pos_right hnt).mpr hw12)
  · intro K c d1 n1 d2 n2 hn2 hn21
    simp only [RayCone.computeLOD, RayCone.getWidth, Bool.false_eq_true, if_false]
    apply add_le_add_left
    rcases eq_or_ne c.width 0 with hw | hw
    · rw [hw]
      simp
    · have hwpos : 0 < |c.width| := abs_pos.mpr hw
      exact Real.logb_le_logb_of_le (by norm_num)
        (div_pos hwpos (lt_of_lt_of_le hn2 hn21))
        (div_le_div_of_nonneg_left (abs_nonneg _) hn2 hn21)

/-- Witness for C7 at concrete cones of widths 1 and 2 hitting a surface at
normal incidence. -/
theorem computeLOD_monotone_witness :
    (RayCone.make 1 0).computeLOD 0 ⟨0, 0, 1⟩ ⟨0, 0, 1⟩ false ≤
      (RayCone.make 2 0).computeLOD 0 ⟨0, 0, 1⟩ ⟨0, 0, 1⟩ false ∧
    (RayCone.make 1 0).computeLOD 0 ⟨0, 0, 1⟩ ⟨0, 0, 1⟩ false ≤
      (RayCone.make 1 0).computeLOD 0 ⟨0, 0, 1⟩ ⟨0, 0, 1⟩ false := by
  constructor
  · exact computeLOD_monotone.1 0 ⟨0, 0, 1⟩ ⟨0, 0, 1⟩ (RayCone.make 1 0) (RayCone.make 2 0)
      (by simp [RayCone.make]) (by simp [RayCone.make, abs_two])
  · exact computeLOD_monotone.2 0 (RayCone.make 1 0) ⟨0, 0, 1⟩ ⟨0, 0, 1⟩ ⟨0, 0, 1⟩ ⟨0, 0, 1⟩
      (by norm_num [dot3]) le_rfl

/-! ## Claim C9 -/

/-- Concrete evaluation: the unscaled ellipse axis 0 for the example geometry
(face normal z, cone direction (1,0,-1)). -/
theorem anisoAxis0raw_example : anisoEllipseAxis0raw ⟨0, 0, 1⟩ ⟨1, 0, -1⟩ = ⟨1, 0, 0⟩ := by
  unfold anisoEllipseAxis0raw
  ext <;> norm_num [dot3]

/-- Concrete evaluation: rayDirPlaneProjection0 for the example geometry. -/
theorem anisoProj0_example : anisoProj0 ⟨0, 0, 1⟩ ⟨1, 0, -1⟩ = ⟨0, 0, 1⟩ := by
  unfold anisoProj0
  rw [anisoAxis0raw_example]
  ext <;> norm_num [dot3]

/-- Length of the unit z vector. -/
theorem length3_unitZ : length3 ⟨0, 0, 1⟩ = 1 := by
  unfold length3
  norm_num [dot3]

/-- Length of a vector supported on the y axis with nonnegative coordinate. -/
theorem length3_yAxis (s : ℝ) (hs : 0 ≤ s) : length3 ⟨0, s, 0⟩ = s := by
  unfold length3
  rw [show dot3 ⟨0, s, 0⟩ ⟨0, s, 0⟩ = s ^ 2 by norm_num [dot3]; ring]
  exact Real.sqrt_sq hs

/-- Length of a 2D vector supported on the y axis with nonnegative
coordinate. -/
theorem length2_yAxis (y : ℝ) (hy : 0 ≤ y) : length2 ⟨0, y⟩ = y := by
  unfold length2
  rw [show dot2 ⟨0, y⟩ ⟨0, y⟩ = y ^ 2 by norm_num [dot2]; ring]
  exact Real.sqrt_sq hy

/-- Concrete evaluation: the scaled ellipse axis 0 for the example geometry
is linear in the radius (its projection guard is inactive). -/
theorem anisoAxis0_example (s : ℝ) : anisoEllipseAxis0 ⟨0, 0, 1⟩ ⟨1, 0, -1⟩ s = ⟨s, 0, 0⟩ := by
  unfold anisoEllipseAxis0
  rw [anisoProj0_example, anisoAxis0raw_example, length3_unitZ,
    show max (0.0001 : ℝ) 1 = 1 from max_eq_right (by norm_num)]
  ext <;> simp

/-- Concrete evaluation: the unscaled ellipse axis 1 for the example
geometry. -/
theorem anisoAxis1raw_example (s : ℝ) :
    anisoEllipseAxis1raw ⟨0, 0, 1⟩ ⟨1, 0, -1⟩ s = ⟨0, s, 0⟩ := by
  unfold anisoEllipseAxis1raw
  rw [anisoAxis0_example]
  ext <;> norm_num [cross3]

/-- Concrete evaluation: rayDirPlaneProjection1 for the example geometry. -/
theorem anisoProj1_example (s : ℝ) : anisoProj1 ⟨0, 0, 1⟩ ⟨1, 0, -1⟩ s = ⟨0, s, 0⟩ := by
  unfold anisoProj1
  rw [anisoAxis1raw_example]
  ext <;> norm_num [dot3]

/-- Concrete evaluation of the barycentric-to-texture step on the unit
triangle of the example, for an axis endpoint on the y axis. -/
theorem anisoGradient_example (y : ℝ) :
    anisoGradient ⟨0, 0, 1⟩ ⟨0, 0, 0⟩ ⟨1, 0, 0⟩ ⟨0, 1, 0⟩ ⟨0, 0⟩ ⟨1, 0⟩ ⟨0, 1⟩ ⟨0, 0⟩
      ((⟨0, 0, 0⟩ : Float3) - ⟨0, 0, 0⟩ + ⟨0, y, 0⟩) = ⟨0, y⟩ := by
  unfold anisoGradient anisoAreaDenom
  ext <;> norm_num [dot3, cross3]

/-- C9 counterexample: for a small cone radius the 0.0001 floor on the second
projection length is active, ellipseAxis1 scales quadratically in the radius,
and doubling the radius quadruples (not doubles) the magnitude of
texGradientY, even though interpolatedTexCoordsAtIntersection equals the
barycentric interpolation at the intersection point. -/
theorem anisotropicAxes_radius_doubling_counterexample :
    interpTexCoordsAt ⟨0, 0, 1⟩ ⟨0, 0, 0⟩ ⟨1, 0, 0⟩ ⟨0, 1, 0⟩ ⟨0, 0⟩ ⟨1, 0⟩ ⟨0, 1⟩
      ⟨0, 0, 0⟩ = ⟨0, 0⟩ ∧
    length2 (computeAnisotropicEllipseAxes ⟨0, 0, 0⟩ ⟨0, 0, 1⟩ ⟨1, 0, -1⟩ (2 * (1 / 40000))
        ⟨0, 0, 0⟩ ⟨1, 0, 0⟩ ⟨0, 1, 0⟩ ⟨0, 0⟩ ⟨1, 0⟩ ⟨0, 1⟩ ⟨0, 0⟩).2 ≠
      2 * length2 (computeAnisotropicEllipseAxes ⟨0, 0, 0⟩ ⟨0, 0, 1⟩ ⟨1, 0, -1⟩ (1 / 40000)
        ⟨0, 0, 0⟩ ⟨1, 0, 0⟩ ⟨0, 1, 0⟩ ⟨0, 0⟩ ⟨1, 0⟩ ⟨0, 1⟩ ⟨0, 0⟩).2 := by
  constructor
  · unfold interpTexCoordsAt anisoAreaDenom
    ext <;> norm_num [dot3, cross3]
  · have hax1A : anisoEllipseAxis1 ⟨0, 0, 1⟩ ⟨1, 0, -1⟩ (1 / 40000) = ⟨0, 1 / 160000, 0⟩ := by
      unfold anisoEllipseAxis1
      rw [anisoProj1_example, anisoAxis1raw_example, length3_yAxis _ (by norm_num),
        show max (0.0001 : ℝ) (1 / 40000) = 0.0001 from max_eq_left (by norm_num)]
      ext <;> norm_num
    have hax1B : anisoEllipseAxis1 ⟨0, 0, 1⟩ ⟨1, 0, -1⟩ (2 * (1 / 40000)) =
        ⟨0, 1 / 40000, 0⟩ := by
      unfold anisoEllipseAxis1
      rw [anisoProj1_example, anisoAxis1raw_example, length3_yAxis _ (by norm_num),
        show max (0.0001 : ℝ) (2 * (1 / 40000)) = 0.0001 from max_eq_left (by norm_num)]
      ext <;> norm_num
    unfold computeAnisotropicEllipseAxes
    dsimp only
    rw [hax1A, hax1B, anisoGradient_example, anisoGradient_example,
      length2_yAxis _ (by norm_num), length2_yAxis _ (by norm_num)]
    norm_num

/-- C9 amended: with interpolatedTexCoordsAtIntersection equal to the
barycentric interpolation at the intersection point, doubling the cone
radius doubles texGradientX as a vector and in magnitude unconditionally
(its projection length does not depend on the radius), and doubles
texGradientY as a vector and in magnitude whenever the 0.0001 floor on the
axis-1 projection length is inactive at radius r. -/
theorem anisotropicAxes_linear_in_radius (intersectionPoint faceNormal rayConeDir : Float3)
    (r : ℝ) (p0 p1 p2 : Float3) (t0 t1 t2 : Float2) (interpTex : Float2)
    (hInterp : interpTex = interpTexCoordsAt faceNormal p0 p1 p2 t0 t1 t2 intersectionPoint) :
    ((computeAnisotropicEllipseAxes intersectionPoint faceNormal rayConeDir (2 * r)
        p0 p1 p2 t0 t1 t2 interpTex).1 =
      (2 : ℝ) • (computeAnisotropicEllipseAxes intersectionPoint faceNormal rayConeDir r
        p0 p1 p2 t0 t1 t2 interpTex).1) ∧
    (length2 (computeAnisotropicEllipseAxes intersectionPoint faceNormal rayConeDir (2 * r)
        p0 p1 p2 t0 t1 t2 interpTex).1 =
      2 * length2 (computeAnisotropicEllipseAxes intersectionPoint faceNormal rayConeDir r
        p0 p1 p2 t0 t1 t2 interpTex).1) ∧
    ((0.0001 : ℝ) ≤ length3 (anisoProj1 faceNormal rayConeDir r) →
      (computeAnisotropicEllipseAxes intersectionPoint faceNormal rayConeDir (2 * r)
          p0 p1 p2 t0 t1 t2 interpTex).2 =
        (2 : ℝ) • (computeAnisotropicEllipseAxes intersectionPoint faceNormal rayConeDir r
          p0 p1 p2 t0 t1 t2 interpTex).2 ∧
      length2 (computeAnisotropicEllipseAxes intersectionPoint faceNormal rayConeDir (2 * r)
          p0 p1 p2 t0 t1 t2 interpTex).2 =
        2 * length2 (computeAnisotropicEllipseAxes intersectionPoint faceNormal rayConeDir r
          p0 p1 p2 t0 t1 t2 interpTex).2) := by
  have hax0 : anisoEllipseAxis0 faceNormal rayConeDir (2 * r) =
      (2 : ℝ) • anisoEllipseAxis0 faceNormal rayConeDir r := by
    unfold anisoEllipseAxis0
    ext <;> simp <;> ring
  have key : ∀ a : Float3,
      anisoGradient faceNormal p0 p1 p2 t0 t1 t2 interpTex
        ((intersectionPoint - p0) + (2 : ℝ) • a) =
      (2 : ℝ) • anisoGradient faceNormal p0 p1 p2 t0 t1 t2 interpTex
        ((intersectionPoint - p0) + a) := by
    intro a
    subst hInterp
    unfold anisoGradient interpTexCoordsAt
    ext <;> simp [cross3, dot3] <;> ring
  have h1 : (computeAnisotropicEllipseAxes intersectionPoint faceNormal rayConeDir (2 * r)
      p0 p1 p2 t0 t1 t2 interpTex).1 =
      (2 : ℝ) • (computeAnisotropicEllipseAxes intersectionPoint faceNormal rayConeDir r
      p0 p1 p2 t0 t1 t2 interpTex).1 := by
    unfold computeAnisotropicEllipseAxes
    dsimp only
    rw [hax0]
    exact key _
  refine ⟨h1, by rw [h1, length2_smul, abs_two], fun hGuard => ?_⟩
  have hproj1 : anisoProj1 faceNormal rayConeDir (2 * r) =
      (2 : ℝ) • anisoProj1 faceNormal rayConeDir r := by
    unfold anisoProj1 anisoEllipseAxis1raw
    rw [hax0]
    ext <;> simp [cross3, dot3] <;> ring
  have hlen1 : length3 (anisoProj1 faceNormal rayConeDir (2 * r)) =
      2 * length3 (anisoProj1 faceNormal rayConeDir r) := by
    rw [hproj1, length3_smul, abs_two]
  have hL : (0 : ℝ) < length3 (anisoProj1 faceNormal rayConeDir r) :=
    lt_of_lt_of_le (by norm_num) hGuard
  have hmax1 : max (0.0001 : ℝ) (length3 (anisoProj1 faceNormal rayConeDir r)) =
      length3 (anisoProj1 faceNormal rayConeDir r) := max_eq_right hGuard
  have hmax2 : max (0.0001 : ℝ) (length3 (anisoProj1 faceNormal rayConeDir (2 * r))) =
      2 * length3 (anisoProj1 faceNormal rayConeDir r) := by
    rw [hlen1]
    exact max_eq_right (by linarith)
  have hax1 : anisoEllipseAxis1 faceNormal rayConeDir (2 * r) =
      (2 : ℝ) • anisoEllipseAxis1 faceNormal rayConeDir r := by
    unfold anisoEllipseAxis1 anisoEllipseAxis1raw
    rw [hmax1, hmax2, hax0, mul_div_mul_left r _ (two_ne_zero)]
    ext <;> simp [cross3] <;> ring
  have h2 : (computeAnisotropicEllipseAxes intersectionPoint faceNormal rayConeDir (2 * r)
      p0 p1 p2 t0 t1 t2 interpTex).2 =
      (2 : ℝ) • (computeAnisotropicEllipseAxes intersectionPoint faceNormal rayConeDir r
      p0 p1 p2 t0 t1 t2 interpTex).2 := by
    unfold computeAnisotropicEllipseAxes
    dsimp only
    rw [hax1]
    exact key _
  exact ⟨h2, by rw [h2, length2_smul, abs_two]⟩

/-- Witness for the amended C9 on the unit triangle with cone radius 1,
where the projection-length guard is inactive. -/
theorem anisotropicAxes_linear_in_radius_witness :
    ((computeAnisotropicEllipseAxes ⟨0, 0, 0⟩ ⟨0, 0, 1⟩ ⟨1, 0, -1⟩ (2 * 1)
        ⟨0, 0, 0⟩ ⟨1, 0, 0⟩ ⟨0, 1, 0⟩ ⟨0, 0⟩ ⟨1, 0⟩ ⟨0, 1⟩
        (interpTexCoordsAt ⟨0, 0, 1⟩ ⟨0, 0, 0⟩ ⟨1, 0, 0⟩ ⟨0, 1, 0⟩ ⟨0, 0⟩ ⟨1, 0⟩ ⟨0, 1⟩
          ⟨0, 0, 0⟩)).1 =
      (2 : ℝ) • (computeAnisotropicEllipseAxes ⟨0, 0, 0⟩ ⟨0, 0, 1⟩ ⟨1, 0, -1⟩ 1
        ⟨0, 0, 0⟩ ⟨1, 0, 0⟩ ⟨0, 1, 0⟩ ⟨0, 0⟩ ⟨1, 0⟩ ⟨0, 1⟩
        (interpTexCoordsAt ⟨0, 0, 1⟩ ⟨0, 0, 0⟩ ⟨1, 0, 0⟩ ⟨0, 1, 0⟩ ⟨0, 0⟩ ⟨1, 0⟩ ⟨0, 1⟩
          ⟨0, 0, 0⟩)).1) ∧
    ((computeAnisotropicEllipseAxes ⟨0, 0, 0⟩ ⟨0, 0, 1⟩ ⟨1, 0, -1⟩ (2 * 1)
        ⟨0, 0, 0⟩ ⟨1, 0, 0⟩ ⟨0, 1, 0⟩ ⟨0, 0⟩ ⟨1, 0⟩ ⟨0, 1⟩
        (interpTexCoordsAt ⟨0, 0, 1⟩ ⟨0, 0, 0⟩ ⟨1, 0, 0⟩ ⟨0, 1, 0⟩ ⟨0, 0⟩ ⟨1, 0⟩ ⟨0, 1⟩
          ⟨0, 0, 0⟩)).2 =
      (2 : ℝ) • (computeAnisotropicEllipseAxes ⟨0, 0, 0⟩ ⟨0, 0, 1⟩ ⟨1, 0, -1⟩ 1
        ⟨0, 0, 0⟩ ⟨1, 0, 0⟩ ⟨0, 1, 0⟩ ⟨0, 0⟩ ⟨1, 0⟩ ⟨0, 1⟩
        (interpTexCoordsAt ⟨0, 0, 1⟩ ⟨0, 0, 0⟩ ⟨1, 0, 0⟩ ⟨0, 1, 0⟩ ⟨0, 0⟩ ⟨1, 0⟩ ⟨0, 1⟩
          ⟨0, 0, 0⟩)).2) ∧
    length2 (computeAnisotropicEllipseAxes ⟨0, 0, 0⟩ ⟨0, 0, 1⟩ ⟨1, 0, -1⟩ (2 * 1)
        ⟨0, 0, 0⟩ ⟨1, 0, 0⟩ ⟨0, 1, 0⟩ ⟨0, 0⟩ ⟨1, 0⟩ ⟨0, 1⟩
        (interpTexCoordsAt ⟨0, 0, 1⟩ ⟨0, 0, 0⟩ ⟨1, 0, 0⟩ ⟨0, 1, 0⟩ ⟨0, 0⟩ ⟨1, 0⟩ ⟨0, 1⟩
          ⟨0, 0, 0⟩)).2 =
      2 * length2 (computeAnisotropicEllipseAxes ⟨0, 0, 0⟩ ⟨0, 0, 1⟩ ⟨1, 0, -1⟩ 1
        ⟨0, 0, 0⟩ ⟨1, 0, 0⟩ ⟨0, 1, 0⟩ ⟨0, 0⟩ ⟨1, 0⟩ ⟨0, 1⟩
        (interpTexCoordsAt ⟨0, 0, 1⟩ ⟨0, 0, 0⟩ ⟨1, 0, 0⟩ ⟨0, 1, 0⟩ ⟨0, 0⟩ ⟨1, 0⟩ ⟨0, 1⟩
          ⟨0, 0, 0⟩)).2 := by
  have h := anisotropicAxes_linear_in_radius ⟨0, 0, 0⟩ ⟨0, 0, 1⟩ ⟨1, 0, -1⟩ 1
    ⟨0, 0, 0⟩ ⟨1, 0, 0⟩ ⟨0, 1, 0⟩ ⟨0, 0⟩ ⟨1, 0⟩ ⟨0, 1⟩
    (interpTexCoordsAt ⟨0, 0, 1⟩ ⟨0, 0, 0⟩ ⟨1, 0, 0⟩ ⟨0, 1, 0⟩ ⟨0, 0⟩ ⟨1, 0⟩ ⟨0, 1⟩
      ⟨0, 0, 0⟩) rfl
  have hg := h.2.2 (by rw [anisoProj1_example, length3_yAxis 1 (by norm_num)]; norm_num)
  exact ⟨h.1, hg.1, hg.2⟩

/-! ## Claim C4 -/

/-- The RTG1 formulation at cone width 1 is the smooth function
2 * arctan(c / (2 * sqrt 2 * |dn|)) of the curvature c (the sign factor and
the absolute value cancel into an odd function). -/
theorem rtg1_fun_eq (rayDir normal : Float3) :
    (fun c => computeSpreadAngleFromCurvatureIsoRTG1 c 1 rayDir normal) =
      fun c => 2 * Real.arctan
        (c * (1 / (2 * Real.sqrt 2 * |spreadAngleDenom rayDir normal|))) := by
  funext c
  unfold computeSpreadAngleFromCurvatureIsoRTG1 hlslSign
  dsimp only
  have harg : |c * 1 * 0.5 / spreadAngleDenom rayDir normal| / Real.sqrt 2 =
      |c| * (1 / (2 * Real.sqrt 2 * |spreadAngleDenom rayDir normal|)) := by
    rw [abs_div, abs_mul, abs_mul, abs_one, abs_of_pos (by norm_num : (0 : ℝ) < 0.5)]
    ring
  rw [harg]
  rcases lt_trichotomy c 0 with hneg | hzero | hpos
  · rw [if_pos hneg, abs_of_neg hneg, show -c * (1 / (2 * Real.sqrt 2 *
      |spreadAngleDenom rayDir normal|)) = -(c * (1 / (2 * Real.sqrt 2 *
      |spreadAngleDenom rayDir normal|))) by ring, Real.arctan_neg]
    ring
  · rw [hzero]
    simp
  · rw [if_neg (not_lt.mpr hpos.le), if_neg (ne_of_gt hpos), abs_of_pos hpos]
    ring

/-- The unoptimized arc-length formulation at cone width 1 is the smooth
function 2 * arcsin(c / (2 * dn)) of the curvature c (the radius 1/c and the
final multiplication by c cancel, also at c = 0 where both sides vanish). -/
theorem arcLength_fun_eq (rayDir normal : Float3) :
    (fun c => computeSpreadAngleFromCurvatureIsoArcLength c 1 rayDir normal) =
      fun c => 2 * Real.arcsin (c * (1 / (2 * spreadAngleDenom rayDir normal))) := by
  funext c
  unfold computeSpreadAngleFromCurvatureIsoArcLength
  dsimp only
  rcases eq_or_ne c 0 with hzero | hne
  · rw [hzero]
    simp
  · have harg : 1 / spreadAngleDenom rayDir normal / (2 * (1 / c)) =
        c * (1 / (2 * spreadAngleDenom rayDir normal)) := by
      rw [mul_one_div, div_div_eq_mul_div]
      ring
    rw [harg]
    have h2c : c * (2 * (1 / c)) = 2 := by
      field_simp
    calc c * (Real.arcsin (c * (1 / (2 * spreadAngleDenom rayDir normal))) * (2 * (1 / c)))
        = Real.arcsin (c * (1 / (2 * spreadAngleDenom rayDir normal))) * (c * (2 * (1 / c))) := by
          ring
      _ = 2 * Real.arcsin (c * (1 / (2 * spreadAngleDenom rayDir normal))) := by
          rw [h2c]; ring

/-- The optimized formulation at cone width 1 is the linear function
c / dn of the curvature c. -/
theorem opt_fun_eq (rayDir normal : Float3) :
    (fun c => computeSpreadAngleFromCurvatureIsoOpt c 1 rayDir normal) =
      fun c => c * (1 / spreadAngleDenom rayDir normal) := by
  funext c
  unfold computeSpreadAngleFromCurvatureIsoOpt
  dsimp only
  ring

/-- Derivative at 0 of c, mapped through 2 * arctan(c * k). -/
theorem hasDerivAt_two_arctan_mul (k : ℝ) :
    HasDerivAt (fun c : ℝ => 2 * Real.arctan (c * k)) (2 * k) 0 := by
  have h1 : HasDerivAt (fun c : ℝ => c * k) k 0 := hasDerivAt_mul_const k
  have h2 := Real.hasDerivAt_arctan ((0 : ℝ) * k)
  have h3 := (h2.comp 0 h1).const_mul (2 : ℝ)
  convert h3 using 2
  norm_num

/-- Derivative at 0 of c, mapped through 2 * arcsin(c * k). -/
theorem hasDerivAt_two_arcsin_mul (k : ℝ) :
    HasDerivAt (fun c : ℝ => 2 * Real.arcsin (c * k)) (2 * k) 0 := by
  have h1 : HasDerivAt (fun c : ℝ => c * k) k 0 := hasDerivAt_mul_const k
  have h2 := Real.hasDerivAt_arcsin
    (show (0 : ℝ) * k ≠ -1 by norm_num) (show (0 : ℝ) * k ≠ 1 by norm_num)
  have h3 := (h2.comp 0 h1).const_mul (2 : ℝ)
  convert h3 using 2
  norm_num [Real.sqrt_one]

/-- The clamped denominator at the example inputs rayDir = -z, normal = +z. -/
theorem spreadAngleDenom_example : spreadAngleDenom ⟨0, 0, -1⟩ ⟨0, 0, 1⟩ = 1 := by
  unfold spreadAngleDenom clampGrazing
  norm_num [dot3]

/-- C4 counterexample: at rayDir = -z, normal = +z (dn = 1) and cone width 1,
the derivative of the RTG1 formulation with respect to the curvature at 0 is
1/sqrt 2 while the optimized formulation's derivative is 1, so the three
formulations do not all have equal first derivative at
curvature * rayConeWidth = 0. -/
theorem spreadAngle_first_order_counterexample :
    deriv (fun c => computeSpreadAngleFromCurvatureIsoRTG1 c 1 ⟨0, 0, -1⟩ ⟨0, 0, 1⟩) 0 =
      1 / Real.sqrt 2 ∧
    deriv (fun c => computeSpreadAngleFromCurvatureIsoOpt c 1 ⟨0, 0, -1⟩ ⟨0, 0, 1⟩) 0 = 1 ∧
    (1 / Real.sqrt 2 : ℝ) ≠ 1 := by
  have hs2 : 1 < Real.sqrt 2 := by
    nlinarith [Real.sq_sqrt (by norm_num : (0 : ℝ) ≤ 2), Real.sqrt_nonneg 2]
  refine ⟨?_, ?_, ?_⟩
  · rw [rtg1_fun_eq, spreadAngleDenom_example]
    have h := (hasDerivAt_two_arctan_mul (1 / (2 * Real.sqrt 2 * |(1 : ℝ)|))).deriv
    rw [h, abs_one]
    rw [show (2 : ℝ) * Real.sqrt 2 * 1 = 2 * Real.sqrt 2 by ring]
    field_simp
  · rw [opt_fun_eq, spreadAngleDenom_example]
    have h := (hasDerivAt_mul_const (𝕜 := ℝ) (x := 0) (1 / (1 : ℝ))).deriv
    rw [h]
    norm_num
  · intro heq
    have : Real.sqrt 2 = 1 := by
      field_simp at heq
      linarith [heq]
    linarith

/-- C4 amended: away from grazing, all three formulations vanish at
curvature * rayConeWidth = 0 and the two arc-length formulations agree to
first order there (both have derivative 1/dn), but the RTG1 formulation's
first derivative is 1 / (sqrt 2 * |dn|), which always differs from 1/dn by
the factor sqrt 2 in magnitude. -/
theorem spreadAngle_first_order_amended (rayDir normal : Float3)
    (h : dot3 rayDir normal ≠ 0) :
    computeSpreadAngleFromCurvatureIsoRTG1 0 1 rayDir normal = 0 ∧
    computeSpreadAngleFromCurvatureIsoArcLength 0 1 rayDir normal = 0 ∧
    computeSpreadAngleFromCurvatureIsoOpt 0 1 rayDir normal = 0 ∧
    HasDerivAt (fun c => computeSpreadAngleFromCurvatureIsoArcLength c 1 rayDir normal)
      (1 / spreadAngleDenom rayDir normal) 0 ∧
    HasDerivAt (fun c => computeSpreadAngleFromCurvatureIsoOpt c 1 rayDir normal)
      (1 / spreadAngleDenom rayDir normal) 0 ∧
    HasDerivAt (fun c => computeSpreadAngleFromCurvatureIsoRTG1 c 1 rayDir normal)
      (1 / (Real.sqrt 2 * |spreadAngleDenom rayDir normal|)) 0 ∧
    1 / (Real.sqrt 2 * |spreadAngleDenom rayDir normal|) ≠
      1 / spreadAngleDenom rayDir normal := by
  have hdn : spreadAngleDenom rayDir normal ≠ 0 :=
    clampGrazing_ne_zero _ (neg_ne_zero.mpr h)
  have hs2 : 1 < Real.sqrt 2 := by
    nlinarith [Real.sq_sqrt (by norm_num : (0 : ℝ) ≤ 2), Real.sqrt_nonneg 2]
  have hs2pos : 0 < Real.sqrt 2 := by linarith
  refine ⟨?_, ?_, ?_, ?_, ?_, ?_, ?_⟩
  · have := congrFun (rtg1_fun_eq rayDir normal) 0
    rw [this]
    simp
  · have := congrFun (arcLength_fun_eq rayDir normal) 0
    rw [this]
    simp
  · have := congrFun (opt_fun_eq rayDir normal) 0
    rw [this]
    simp
  · rw [arcLength_fun_eq]
    have h1 := hasDerivAt_two_arcsin_mul (1 / (2 * spreadAngleDenom rayDir normal))
    rw [show (2 : ℝ) * (1 / (2 * spreadAngleDenom rayDir normal)) =
      1 / spreadAngleDenom rayDir normal by
        rw [one_div, mul_inv, ← mul_assoc]
        norm_num] at h1
    exact h1
  · rw [opt_fun_eq]
    exact hasDerivAt_mul_const (1 / spreadAngleDenom rayDir normal)
  · rw [rtg1_fun_eq]
    have h1 := hasDerivAt_two_arctan_mul
      (1 / (2 * Real.sqrt 2 * |spreadAngleDenom rayDir normal|))
    rw [show (2 : ℝ) * (1 / (2 * Real.sqrt 2 * |spreadAngleDenom rayDir normal|)) =
      1 / (Real.sqrt 2 * |spreadAngleDenom rayDir normal|) by
        rw [one_div, show (2 : ℝ) * Real.sqrt 2 * |spreadAngleDenom rayDir normal| =
          2 * (Real.sqrt 2 * |spreadAngleDenom rayDir normal|) by ring, mul_inv,
          ← mul_assoc]
        norm_num] at h1
    exact h1
  · rcases lt_or_gt_of_ne hdn with hneg | hpos
    · intro heq
      have habs : 0 < |spreadAngleDenom rayDir normal| := abs_pos.mpr hdn
      have h1 : 0 < 1 / (Real.sqrt 2 * |spreadAngleDenom rayDir normal|) :=
        one_div_pos.mpr (mul_pos hs2pos habs)
      have h2 : 1 / spreadAngleDenom rayDir normal < 0 :=
        div_neg_of_pos_of_neg one_pos hneg
      rw [heq] at h1
      linarith
    · rw [abs_of_pos hpos]
      intro heq
      rw [div_eq_div_iff (mul_pos hs2pos hpos).ne' hpos.ne'] at heq
      nlinarith

/-- Witness for the amended C4 at rayDir = -z, normal = +z (dn = 1). -/
theorem spreadAngle_first_order_amended_witness :
    computeSpreadAngleFromCurvatureIsoRTG1 0 1 ⟨0, 0, -1⟩ ⟨0, 0, 1⟩ = 0 ∧
    computeSpreadAngleFromCurvatureIsoArcLength 0 1 ⟨0, 0, -1⟩ ⟨0, 0, 1⟩ = 0 ∧
    computeSpreadAngleFromCurvatureIsoOpt 0 1 ⟨0, 0, -1⟩ ⟨0, 0, 1⟩ = 0 ∧
    HasDerivAt (fun c => computeSpreadAngleFromCurvatureIsoArcLength c 1 ⟨0, 0, -1⟩ ⟨0, 0, 1⟩)
      (1 / spreadAngleDenom ⟨0, 0, -1⟩ ⟨0, 0, 1⟩) 0 ∧
    HasDerivAt (fun c => computeSpreadAngleFromCurvatureIsoOpt c 1 ⟨0, 0, -1⟩ ⟨0, 0, 1⟩)
      (1 / spreadAngleDenom ⟨0, 0, -1⟩ ⟨0, 0, 1⟩) 0 ∧
    HasDerivAt (fun c => computeSpreadAngleFromCurvatureIsoRTG1 c 1 ⟨0, 0, -1⟩ ⟨0, 0, 1⟩)
      (1 / (Real.sqrt 2 * |spreadAngleDenom ⟨0, 0, -1⟩ ⟨0, 0, 1⟩|)) 0 ∧
    1 / (Real.sqrt 2 * |spreadAngleDenom ⟨0, 0, -1⟩ ⟨0, 0, 1⟩|) ≠
      1 / spreadAngleDenom ⟨0, 0, -1⟩ ⟨0, 0, 1⟩ :=
  spreadAngle_first_order_amended ⟨0, 0, -1⟩ ⟨0, 0, 1⟩ (by norm_num [dot3])

/-! ## Claim C5 -/

/-- Symmetry of the embedded dot product. -/
theorem dot3_comm (a b : Float3) : dot3 a b = dot3 b a := by
  simp only [dot3]
  ring

/-- Cauchy-Schwarz for the embedded dot product (Lagrange identity). -/
theorem dot3_sq_le (a b : Float3) : dot3 a b ^ 2 ≤ dot3 a a * dot3 b b := by
  simp only [dot3]
  nlinarith [sq_nonneg (a.x * b.y - a.y * b.x), sq_nonneg (a.x * b.z - a.z * b.x),
    sq_nonneg (a.y * b.z - a.z * b.y)]

/-- With eta = 1 and the incident direction on the front side of the 2D
normal, refractWithTIR succeeds and returns the incident direction. -/
theorem refractWithTIR2_eta_one (v w : Float2) (hvw : dot2 w v < 0) :
    refractWithTIR2 v w 1 = (true, v) := by
  unfold refractWithTIR2
  dsimp only
  have hknn : ¬ (1 - 1 * 1 * (1 - dot2 w v * dot2 w v) < 0) := by
    nlinarith [sq_nonneg (dot2 w v)]
  rw [if_neg hknn]
  have hsq : Real.sqrt (1 - 1 * 1 * (1 - dot2 w v * dot2 w v)) = -(dot2 w v) := by
    rw [show 1 - 1 * 1 * (1 - dot2 w v * dot2 w v) = (dot2 w v) ^ 2 by ring,
      Real.sqrt_sq_eq_abs]
    exact abs_of_neg hvw
  rw [hsq]
  simp only [Prod.mk.injEq]
  refine ⟨trivial, ?_⟩
  ext <;> simp <;> ring

/-- With eta = 1 and the ray on the front side of the normal, the 3D
refractWithTIR succeeds and returns the incident direction. -/
theorem refractWithTIR3_eta_one (v w : Float3) (hvw : dot3 w v < 0) :
    refractWithTIR3 v w 1 = (true, v) := by
  unfold refractWithTIR3
  dsimp only
  have hknn : ¬ (1 - 1 * 1 * (1 - dot3 w v * dot3 w v) < 0) := by
    nlinarith [sq_nonneg (dot3 w v)]
  rw [if_neg hknn]
  have hsq : Real.sqrt (1 - 1 * 1 * (1 - dot3 w v * dot3 w v)) = -(dot3 w v) := by
    rw [show 1 - 1 * 1 * (1 - dot3 w v * dot3 w v) = (dot3 w v) ^ 2 by ring,
      Real.sqrt_sq_eq_abs]
    exact abs_of_neg hvw
  rw [hsq]
  simp only [Prod.mk.injEq]
  refine ⟨trivial, ?_⟩
  ext <;> simp <;> ring

/-- With eta = 1 and a front-side bounding line, the 2D bound refraction of
computeRayConeForRefraction is the identity. -/
theorem refrBound2D_eta_one (v w : Float2) (hvw : dot2 w v < 0) :
    refrBound2D v w 1 = v := by
  unfold refrBound2D
  rw [refractWithTIR2_eta_one v w hvw]
  simp

/-- With eta = 1, NdotDprime = -NdotD and mu = 0, the refracted ray
differential of Igehy equations 16 to 19 is the unchanged input
differential. -/
theorem computeRayDifferentialRefraction_eta_one (rayDiff : RayDiff)
    (rayDir nonN normN : Float3) (dBarydx dBarydy : Float2)
    (normalsW : Float3 × Float3 × Float3) (refractedDir : Float3)
    (hq : dot3 normN rayDir < 0) :
    computeRayDifferentialRefraction rayDiff rayDir nonN normN dBarydx dBarydy normalsW
      1 refractedDir (dot3 normN rayDir) (-(dot3 normN rayDir)) 0 = rayDiff := by
  unfold computeRayDifferentialRefraction RayDiff.make
  dsimp only
  have hq_ne : dot3 normN rayDir ≠ 0 := ne_of_lt hq
  have hfac : (1 : ℝ) * (1 + 1 * dot3 normN rayDir / -(dot3 normN rayDir)) = 0 := by
    field_simp
  rw [hfac]
  ext <;> simp <;> ring

/-- With eta = 1 and a front-facing normal, refractRayDifferential succeeds
and leaves both the ray differential and the direction unchanged. -/
theorem refractRayDifferential_eta_one (rayDiff : RayDiff) (rayDir nonN normN : Float3)
    (dBarydx dBarydy : Float2) (normalsW : Float3 × Float3 × Float3)
    (hq : dot3 normN rayDir < 0) :
    refractRayDifferential rayDiff rayDir nonN normN dBarydx dBarydy normalsW 1 =
      (true, rayDiff, rayDir) := by
  unfold refractRayDifferential
  dsimp only
  have hknot : ¬ (1 < 1 * 1 * (1 - dot3 normN rayDir * dot3 normN rayDir)) := by
    nlinarith [sq_nonneg (dot3 normN rayDir)]
  rw [if_neg hknot]
  have hsq : Real.sqrt (1 - 1 * 1 * (1 - dot3 normN rayDir * dot3 normN rayDir)) =
      -(dot3 normN rayDir) := by
    rw [show 1 - 1 * 1 * (1 - dot3 normN rayDir * dot3 normN rayDir) =
      (dot3 normN rayDir) ^ 2 by ring, Real.sqrt_sq_eq_abs]
    exact abs_of_neg hq
  rw [hsq]
  have hmu : (1 : ℝ) * dot3 normN rayDir + -(dot3 normN rayDir) = 0 := by ring
  rw [hmu]
  have hdir : (1 : ℝ) • rayDir - (0 : ℝ) • normN = rayDir := by
    ext <;> simp
  rw [hdir]
  simp only [Prod.mk.injEq]
  exact ⟨trivial, computeRayDifferentialRefraction_eta_one rayDiff rayDir nonN normN
    dBarydx dBarydy normalsW rayDir hq, trivial⟩

/-- Linearity of the embedded dot product in a scaled second argument. -/
theorem dot3_smul_right (t : ℝ) (a b : Float3) : dot3 a (t • b) = t * dot3 a b := by
  simp only [dot3, Float3_smul_x, Float3_smul_y, Float3_smul_z]
  ring

/-- Linearity of the embedded dot product in a subtracted second argument. -/
theorem dot3_sub_right (a b c : Float3) : dot3 a (b - c) = dot3 a b - dot3 a c := by
  simp only [dot3, Float3_sub_x, Float3_sub_y, Float3_sub_z]
  ring

/-- Clearing the denominator in the 2D line intersection expressions of
computeRayConeForRefraction. -/
theorem intersect_mul_denom (a b c e : ℝ) (he : e ≠ 0) :
    (a + b * (c / e)) * e = a * e + b * c := by
  field_simp

/-- C5: for eta = 1 at a front-facing hit (unit ray direction and normal,
dot(normal, rayDir) < 0), with zero normal spread angle, a cone of positive
width, spread angle of magnitude below pi, and both bounding rays heading
toward the surface, refractRayCone succeeds and returns the cone and
direction unchanged, and refractRayDifferential succeeds and returns the ray
differential and direction unchanged. -/
theorem refraction_eta_one_identity (rayOrg rayDir hitPoint normal : Float3) (W sg : ℝ)
    (rayDiff : RayDiff) (nonN : Float3) (dBarydx dBarydy : Float2)
    (normalsW : Float3 × Float3 × Float3)
    (hd : dot3 rayDir rayDir = 1) (hn : dot3 normal normal = 1)
    (hq : dot3 normal rayDir < 0) (hW : 0 < W) (hsg : |sg| < Real.pi)
    (hu : ((refrIncidentDirsUL (RayCone.mk W sg) rayDir normal).1).y < 0)
    (hl : ((refrIncidentDirsUL (RayCone.mk W sg) rayDir normal).2).y < 0) :
    refractRayCone (RayCone.mk W sg) rayOrg rayDir hitPoint normal 0 1 =
      (true, RayCone.mk W sg, rayDir) ∧
    refractRayDifferential rayDiff rayDir nonN normal dBarydx dBarydy normalsW 1 =
      (true, rayDiff, rayDir) := by
  refine ⟨?_, refractRayDifferential_eta_one rayDiff rayDir nonN normal dBarydx dBarydy
    normalsW hq⟩
  have hTIR3 : refractWithTIR3 rayDir normal 1 = (true, rayDir) :=
    refractWithTIR3_eta_one rayDir normal hq
  set q := dot3 normal rayDir with hq_def
  have hq2 : q ^ 2 ≤ 1 := by
    have h := dot3_sq_le normal rayDir
    rw [hn, hd] at h
    simpa using h
  set s0 := Real.sqrt (1 - q ^ 2) with hs0_def
  have hs0nn : 0 ≤ s0 := Real.sqrt_nonneg _
  have hs0sq : s0 ^ 2 = 1 - q ^ 2 := Real.sq_sqrt (by linarith)
  have hs0q : s0 ^ 2 + q ^ 2 = 1 := by linarith
  have hdn : dot3 rayDir normal = q := dot3_comm rayDir normal
  have hsub : dot3 (rayDir - q • normal) (rayDir - q • normal) = 1 - q ^ 2 := by
    simp only [dot3, Float3_sub_x, Float3_sub_y, Float3_sub_z, Float3_smul_x,
      Float3_smul_y, Float3_smul_z]
    simp only [dot3] at hd hn hdn
    linear_combination hd + q ^ 2 * hn - 2 * q * hdn
  have hlen : length3 (rayDir - q • normal) = s0 := by
    unfold length3
    rw [hsub]
  have hd_dot : dot3 rayDir (rayDir - q • normal) = 1 - q ^ 2 := by
    rw [dot3_sub_right, dot3_smul_right, hd, hdn]
    ring
  have hxaxis : dot3 rayDir (refrXAxis rayDir normal) = s0 := by
    unfold refrXAxis normalize3
    rw [← hq_def, hlen, dot3_smul_right, hd_dot]
    rcases eq_or_lt_of_le hs0nn with h0 | h0
    · rw [show (1 : ℝ) - q ^ 2 = 0 by rw [← hs0sq, ← h0]; ring]
      rw [← h0]
      ring
    · rw [← hs0sq]
      field_simp
      ring
  have hi2d : refrIncidentDir2D rayDir normal = ⟨s0, q⟩ := by
    unfold refrIncidentDir2D
    rw [hxaxis, hdn]
  set C := Real.cos (sg / 2) with hC_def
  set S := Real.sin (sg / 2) with hS_def
  have hws : refrWidthSign (RayCone.mk W sg) = 1 := by
    unfold refrWidthSign RayCone.getWidth
    exact if_pos hW
  have hUL : refrIncidentDirsUL (RayCone.mk W sg) rayDir normal =
      (⟨C * s0 - S * q, S * s0 + C * q⟩, ⟨C * s0 + S * q, -(S * s0) + C * q⟩) := by
    unfold refrIncidentDirsUL rotate2DPlusMinus RayCone.getSpreadAngle
    dsimp only
    rw [hws, hi2d, show sg * 1 * 0.5 = sg / 2 by ring, ← hC_def, ← hS_def]
  rw [hUL] at hu hl
  dsimp only at hu hl
  have hpi := abs_lt.mp hsg
  have hCpos : 0 < C := by
    rw [hC_def]
    apply Real.cos_pos_of_mem_Ioo
    rw [Set.mem_Ioo]
    constructor
    · linarith [hpi.1]
    · linarith [hpi.2]
  have hCne : C ≠ 0 := ne_of_gt hCpos
  have htu : refrTu (RayCone.mk W sg) rayDir normal = ⟨W * 0.5 * -q, W * 0.5 * s0⟩ := by
    unfold refrTu orthogonal RayCone.getWidth
    rw [hi2d]
    ext <;> simp
  have hux : refrHitPointUX (RayCone.mk W sg) rayDir normal * (S * s0 + C * q) =
      -(W * 0.5) * C := by
    unfold refrHitPointUX
    rw [htu, hUL]
    dsimp only
    rw [intersect_mul_denom _ _ _ _ (ne_of_lt hu)]
    linear_combination (-(W * 0.5) * C) * hs0q
  have hlx : refrHitPointLX (RayCone.mk W sg) rayDir normal * (-(S * s0) + C * q) =
      (W * 0.5) * C := by
    unfold refrHitPointLX
    rw [htu, hUL]
    simp only [Float2_neg_x, Float2_neg_y]
    rw [intersect_mul_denom _ _ _ _ (ne_of_lt hl)]
    linear_combination (W * 0.5 * C) * hs0q
  have huxpos : 0 < refrHitPointUX (RayCone.mk W sg) rayDir normal := by
    have h1 : refrHitPointUX (RayCone.mk W sg) rayDir normal =
        -(W * 0.5) * C / (S * s0 + C * q) := by
      rw [eq_div_iff (ne_of_lt hu)]
      exact hux
    rw [h1]
    exact div_pos_of_neg_of_neg (by nlinarith) hu
  have hlxneg : refrHitPointLX (RayCone.mk W sg) rayDir normal < 0 := by
    have h1 : refrHitPointLX (RayCone.mk W sg) rayDir normal =
        (W * 0.5) * C / (-(S * s0) + C * q) := by
      rw [eq_div_iff (ne_of_lt hl)]
      exact hlx
    rw [h1]
    exact div_neg_of_pos_of_neg (by nlinarith) hl
  have hns : refrNormalSign (RayCone.mk W sg) rayDir normal = 1 := by
    unfold refrNormalSign
    exact if_pos (lt_trans hlxneg huxpos)
  have hnuls : refrNormalsUL (RayCone.mk W sg) rayDir normal 0 = (⟨0, 1⟩, ⟨0, 1⟩) := by
    unfold refrNormalsUL rotate2DPlusMinus
    rw [hns, show (-(0 : ℝ) * 1 * 0.5) = 0 by norm_num, Real.cos_zero, Real.sin_zero]
    dsimp only
    congr 1 <;> ext <;> norm_num
  have hbu : refrRefractedDirU (RayCone.mk W sg) rayDir normal 0 1 =
      ⟨C * s0 - S * q, S * s0 + C * q⟩ := by
    unfold refrRefractedDirU
    rw [hUL, hnuls]
    dsimp only
    apply refrBound2D_eta_one
    simpa [dot2] using hu
  have hbl : refrRefractedDirL (RayCone.mk W sg) rayDir normal 0 1 =
      ⟨C * s0 + S * q, -(S * s0) + C * q⟩ := by
    unfold refrRefractedDirL
    rw [hUL, hnuls]
    dsimp only
    apply refrBound2D_eta_one
    simpa [dot2] using hl
  have hsin2 : Real.sin sg = 2 * S * C := by
    have h1 := Real.sin_two_mul (sg / 2)
    rw [show 2 * (sg / 2) = sg by ring] at h1
    rw [h1, hS_def, hC_def]
  have hcos2 : Real.cos sg = C ^ 2 - S ^ 2 := by
    have h1 := Real.cos_two_mul (sg / 2)
    have h2 := Real.sin_sq_add_cos_sq (sg / 2)
    rw [show 2 * (sg / 2) = sg by ring] at h1
    rw [hS_def, hC_def]
    linarith
  have hdotul : dot2 (⟨C * s0 - S * q, S * s0 + C * q⟩ : Float2)
      ⟨C * s0 + S * q, -(S * s0) + C * q⟩ = Real.cos sg := by
    rw [hcos2]
    simp only [dot2]
    linear_combination (C ^ 2 - S ^ 2) * hs0q
  have hcrossul : (C * s0 - S * q) * (-(S * s0) + C * q) -
      (S * s0 + C * q) * (C * s0 + S * q) = -Real.sin sg := by
    rw [hsin2]
    linear_combination (-(2 * S * C)) * hs0q
  have harc : Real.arccos (Real.cos sg) = |sg| := by
    rcases le_or_lt 0 sg with hpos | hneg
    · rw [Real.arccos_cos hpos (le_of_lt hpi.2), abs_of_nonneg hpos]
    · rw [← Real.cos_neg, Real.arccos_cos (by linarith) (by linarith [hpi.1]),
        abs_of_neg hneg]
  have hspread : refrSpreadAngle (RayCone.mk W sg) rayDir normal 0 1 = sg := by
    unfold refrSpreadAngle refrSignA
    rw [hbu, hbl, hns]
    dsimp only
    rw [mul_one, hdotul, harc, hcrossul]
    rcases lt_trichotomy sg 0 with hneg | h0 | hpos
    · have hsin : Real.sin sg < 0 := Real.sin_neg_of_neg_of_neg_pi_lt hneg hpi.1
      rw [if_neg (by linarith), abs_of_neg hneg]
      ring
    · rw [h0]
      norm_num [Real.sin_zero]
    · have hsin : 0 < Real.sin sg := Real.sin_pos_of_pos_of_lt_pi hpos hpi.2
      rw [if_pos (by linarith), abs_of_pos hpos, mul_one]
  have hrd2d : refrRefractedDir2D rayDir normal rayDir = ⟨s0, q⟩ := by
    unfold refrRefractedDir2D
    rw [hxaxis, hdn]
  have hwidth : refrWidth (RayCone.mk W sg) rayDir normal 0 1 rayDir = W := by
    unfold refrWidth orthogonal
    rw [hbu, hbl, hrd2d]
    dsimp only
    simp only [dot2]
    have hD1 : -q * -(S * s0 + C * q) + s0 * (C * s0 - S * q) = C := by
      linear_combination C * hs0q
    have hD2 : -q * -(-(S * s0) + C * q) + s0 * (C * s0 + S * q) = C := by
      linear_combination C * hs0q
    rw [hD1, hD2]
    have hnum1 : -refrHitPointUX (RayCone.mk W sg) rayDir normal * (S * s0 + C * q) =
        W * 0.5 * C := by
      linear_combination -hux
    have hnum2 : refrHitPointLX (RayCone.mk W sg) rayDir normal * (-(S * s0) + C * q) =
        W * 0.5 * C := by
      linear_combination hlx
    rw [hnum1, hnum2, mul_div_cancel_right₀ _ hCne]
    ring
  have hcone : computeRayConeForRefraction (RayCone.mk W sg) rayOrg rayDir hitPoint
      normal 0 1 rayDir = RayCone.mk W sg := by
    unfold computeRayConeForRefraction RayCone.make
    rw [hwidth, hspread]
  unfold refractRayCone
  rw [hTIR3]
  dsimp only
  rw [if_pos rfl, hcone]

/-- Witness for C5 at the concrete oblique unit ray (3/5, 0, -4/5) against
the unit normal +z, with a cone of width 1 and spread angle 0. -/
theorem refraction_eta_one_identity_witness :
    refractRayCone (RayCone.mk 1 0) ⟨0, 0, 0⟩ ⟨3/5, 0, -(4/5)⟩ ⟨0, 0, 0⟩ ⟨0, 0, 1⟩ 0 1 =
      (true, RayCone.mk 1 0, ⟨3/5, 0, -(4/5)⟩) ∧
    refractRayDifferential (RayDiff.make ⟨0, 0, 0⟩ ⟨0, 0, 0⟩ ⟨0, 0, 0⟩ ⟨0, 0, 0⟩)
      ⟨3/5, 0, -(4/5)⟩ ⟨0, 0, 1⟩ ⟨0, 0, 1⟩ ⟨0, 0⟩ ⟨0, 0⟩
      ⟨⟨0, 0, 0⟩, ⟨0, 0, 0⟩, ⟨0, 0, 0⟩⟩ 1 =
      (true, RayDiff.make ⟨0, 0, 0⟩ ⟨0, 0, 0⟩ ⟨0, 0, 0⟩ ⟨0, 0, 0⟩, ⟨3/5, 0, -(4/5)⟩) := by
  apply refraction_eta_one_identity
  · norm_num [dot3]
  · norm_num [dot3]
  · norm_num [dot3]
  · norm_num
  · simpa using Real.pi_pos
  · norm_num [refrIncidentDirsUL, rotate2DPlusMinus, refrIncidentDir2D,
      RayCone.getSpreadAngle, dot3]
  · norm_num [refrIncidentDirsUL, rotate2DPlusMinus, refrIncidentDir2D,
      RayCone.getSpreadAngle, dot3]
